import Mathlib

/-!
Verification development for the distributed judiciary-process distribution
system (agents: court, district, trial).  The Go sources are shallowly
embedded: each Lean definition mirrors one Go function of the same name,
with machine integers as `Int`, slices as `List`, UDP responses as plain
structures, and fallible persistence as an explicit `saveOk : Bool`
parameter (Go's `saveLocked` either succeeds or returns an error after the
in-memory mutation already happened).
-/

namespace Judiciary

/-- Go `strings.EqualFold` restricted to the case folding of `String.toLower`
(the repository only ever compares ASCII names). -/
def eqFold (a b : String) : Bool :=
  a.data.map Char.toLower == b.data.map Char.toLower

/-- `Lawsuit` struct of the trial agent (part_002): id "D.T.N", parties,
cause of action, claims list and connected-lawsuit ids.  The legacy
single-claim field only matters for file loading and is not modelled. -/
structure Lawsuit where
  id : String
  plaintiff : String
  defendant : String
  causeAction : Int
  claims : List Int
  connected : List String
deriving Repr, DecidableEq

/-- `TrialState` struct: identity mirror, monotonic sequence and the three
lawsuit lists. -/
structure TrialState where
  districtID : Int
  districtName : String
  trialID : Int
  trialAddr : String
  nextSeq : Int
  activesLawsuits : List Lawsuit
  lawsuitsDisWithMerit : List Lawsuit
  lawsuitsDisWithoutMerit : List Lawsuit
deriving Repr, DecidableEq

/-- `ActionQuery`: the candidate lawsuit description used on the wire. -/
structure ActionQuery where
  plaintiff : String
  defendant : String
  causeID : Int
  claims : List Int
deriving Repr, DecidableEq

/-- Go `sameIntSet` builds a count map of `a` and cancels it against `b`:
it decides multiset equality of the two claim slices.  `List.isPerm` is the
same decision procedure expressed on lists. -/
def sameIntSet (a b : List Int) : Bool :=
  a.isPerm b

/-- Go `isSubset`: fails fast when `len(sub) > len(sup)`, otherwise checks
that every element of `sub` is member of the element set of `sup`. -/
def isSubset (sub sup : List Int) : Bool :=
  decide (sub.length ≤ sup.length) && sub.all (fun x => sup.elem x)

/-- Go `hasOverlap`: builds the element set of `a` and scans `b` for a hit. -/
def hasOverlap (a b : List Int) : Bool :=
  b.any (fun x => a.elem x)

/-- Match predicate used by `findIdenticalDwM`: identical 4-tuple
(case-insensitive parties, exact cause, multiset-equal claims). -/
def identicalMatch (a : Lawsuit) (q : ActionQuery) : Bool :=
  eqFold a.plaintiff q.plaintiff &&
  eqFold a.defendant q.defendant &&
  a.causeAction == q.causeID &&
  sameIntSet a.claims q.claims

/-- Go `findIdenticalDwM`: first identical lawsuit in the selected list
("dis_with", "dis_without" or "actives"). -/
def findIdenticalDwM (ts : TrialState) (list : String) (q : ActionQuery) : Option Lawsuit :=
  if list = "dis_with" then
    ts.lawsuitsDisWithMerit.find? (fun a => identicalMatch a q)
  else if list = "dis_without" then
    ts.lawsuitsDisWithoutMerit.find? (fun a => identicalMatch a q)
  else if list = "actives" then
    ts.activesLawsuits.find? (fun a => identicalMatch a q)
  else
    none

/-- One step of Go `findJoinder`'s loop body: `none` when the row is skipped
(different parties/cause, or multiset-equal claims), otherwise the verdict. -/
def joinderRow (q : ActionQuery) (a : Lawsuit) : Option (String × Lawsuit) :=
  if !eqFold a.plaintiff q.plaintiff then none
  else if !eqFold a.defendant q.defendant then none
  else if a.causeAction != q.causeID then none
  else if sameIntSet a.claims q.claims then none
  else if isSubset q.claims a.claims then some ("joinder_contained", a)
  else if isSubset a.claims q.claims then some ("joinder_continent", a)
  else none

/-- Go `findJoinder`: scan the active lawsuits in creation order and return
the first joinder verdict. -/
def findJoinder (ts : TrialState) (q : ActionQuery) : Option (String × Lawsuit) :=
  ts.activesLawsuits.findSome? (joinderRow q)

/-- One step of Go `findConnection`'s loop body: rows with same parties and
same cause are reserved for joinder and skipped; otherwise same cause or a
common claim is a connection hit. -/
def connectionRow (q : ActionQuery) (a : Lawsuit) : Option Lawsuit :=
  if eqFold a.plaintiff q.plaintiff && eqFold a.defendant q.defendant &&
      a.causeAction == q.causeID then
    none
  else if (a.causeAction == q.causeID) || hasOverlap a.claims q.claims then
    some a
  else
    none

/-- Go `findConnection`: first connection hit among the active lawsuits. -/
def findConnection (ts : TrialState) (q : ActionQuery) : Option Lawsuit :=
  ts.activesLawsuits.findSome? (connectionRow q)

/-- Go `nextID`: format "DistrictID.TrialID.Seq". -/
def mkLawsuitID (districtID trialID seq : Int) : String :=
  toString districtID ++ "." ++ toString trialID ++ "." ++ toString seq

/-- In-memory effect of Go `CreateLawsuit` (before `saveLocked` runs): a new
active lawsuit with the next id, appended to the actives list. -/
def CreateLawsuit (ts : TrialState) (plaintiff defendant : String) (cause : Int)
    (claims : List Int) (connected : List String) : TrialState × Lawsuit :=
  let a : Lawsuit :=
    { id := mkLawsuitID ts.districtID ts.trialID ts.nextSeq
      plaintiff := plaintiff
      defendant := defendant
      causeAction := cause
      claims := claims
      connected := connected }
  ({ ts with
      nextSeq := ts.nextSeq + 1
      activesLawsuits := ts.activesLawsuits ++ [a] }, a)

/-- Go `CreateLawsuit` with its persistence step: on a failed `saveLocked`
the Go method returns an error (`none` here) but the receiver keeps the
already-mutated in-memory state. -/
def createLawsuitOp (ts : TrialState) (plaintiff defendant : String) (cause : Int)
    (claims : List Int) (connected : List String) (saveOk : Bool) :
    TrialState × Option Lawsuit :=
  let (ts', a) := CreateLawsuit ts plaintiff defendant cause claims connected
  if saveOk then (ts', some a) else (ts', none)

/-- Remove the first lawsuit with the given id from a list, returning it and
the remaining list (Go's index scan plus slice splice). -/
def removeFirstByID : List Lawsuit → String → Option (Lawsuit × List Lawsuit)
  | [], _ => none
  | a :: rest, i =>
    if a.id == i then some (a, rest)
    else (removeFirstByID rest i).map (fun p => (p.1, a :: p.2))

/-- Go `DismissWithMerit` with persistence: not-found returns the untouched
state; on a failed save the moved lawsuit stays moved in memory. -/
def dismissWithMeritOp (ts : TrialState) (i : String) (saveOk : Bool) :
    TrialState × Option Lawsuit :=
  match removeFirstByID ts.activesLawsuits i with
  | none => (ts, none)
  | some (a, rest) =>
    let ts' := { ts with
      activesLawsuits := rest
      lawsuitsDisWithMerit := ts.lawsuitsDisWithMerit ++ [a] }
    (ts', if saveOk then some a else none)

/-- Go `DismissWithoutmerit` with persistence, symmetric to the with-merit
variant. -/
def dismissWithoutMeritOp (ts : TrialState) (i : String) (saveOk : Bool) :
    TrialState × Option Lawsuit :=
  match removeFirstByID ts.activesLawsuits i with
  | none => (ts, none)
  | some (a, rest) =>
    let ts' := { ts with
      activesLawsuits := rest
      lawsuitsDisWithoutMerit := ts.lawsuitsDisWithoutMerit ++ [a] }
    (ts', if saveOk then some a else none)

/-- Go's `addUnique` helper inside `AddClaims`. -/
def addUnique (slice : List Int) (val : Int) : List Int :=
  if slice.elem val then slice else slice ++ [val]

/-- Go `AddClaims` loop: merge the new claims into the first active lawsuit
with the given id; `none` when no active lawsuit matches. -/
def addClaimsList : List Lawsuit → String → List Int → Option (List Lawsuit)
  | [], _, _ => none
  | a :: rest, i, newClaims =>
    if a.id == i then
      some ({ a with claims := newClaims.foldl addUnique a.claims } :: rest)
    else
      (addClaimsList rest i newClaims).map (fun l => a :: l)

/-- Go `AddClaims` on the trial state (successful persistence): merges into
the actives list only, all other fields untouched. -/
def AddClaims (ts : TrialState) (i : String) (newClaims : List Int) :
    Option TrialState :=
  (addClaimsList ts.activesLawsuits i newClaims).map
    (fun l => { ts with activesLawsuits := l })

/-- Go `AddClaims` with its persistence step: second component is the
success flag of the whole call; a failed save leaves the merge in memory. -/
def addClaimsOp (ts : TrialState) (i : String) (newClaims : List Int)
    (saveOk : Bool) : TrialState × Bool :=
  match addClaimsList ts.activesLawsuits i newClaims with
  | none => (ts, false)
  | some l => ({ ts with activesLawsuits := l }, saveOk)

/-- Go's `addUniqueStr` helper inside `AddConnection`. -/
def addUniqueStr (slice : List String) (val : String) : List String :=
  if slice.elem val then slice else slice ++ [val]

/-- Update the lawsuit with the given id in place. -/
def updateByID (l : List Lawsuit) (i : String) (f : Lawsuit → Lawsuit) : List Lawsuit :=
  l.map (fun a => if a.id == i then f a else a)

/-- Go `AddConnection`: link two active lawsuits (bidirectionally when both
are resident, one-ended when `otherID` is absent).  Second component is the
success flag (not-found on `i` fails). -/
def AddConnection (ts : TrialState) (i otherID : String) (saveOk : Bool) :
    TrialState × Bool :=
  if !ts.activesLawsuits.any (fun a => a.id == i) then (ts, false)
  else if !ts.activesLawsuits.any (fun a => a.id == otherID) then
    let l1 := updateByID ts.activesLawsuits i
      (fun a => { a with connected := addUniqueStr a.connected otherID })
    ({ ts with activesLawsuits := l1 }, saveOk)
  else
    let l1 := updateByID ts.activesLawsuits i
      (fun a => { a with connected := addUniqueStr a.connected otherID })
    let l2 := updateByID l1 otherID
      (fun a => { a with connected := addUniqueStr a.connected i })
    ({ ts with activesLawsuits := l2 }, saveOk)

/-- One `SearchResult` row of Go `SearchLawsuits`. -/
structure SearchResult where
  list : String
  lawsuit : Lawsuit
deriving Repr, DecidableEq

/-- Go `SearchLawsuits`'s per-row `match` closure.  `value` is the raw wire
string; numeric fields parse it with `strconv.Atoi`. -/
def searchFieldMatch (field value : String) (a : Lawsuit) : Bool :=
  if field = "id" then eqFold a.id value
  else if field = "plaintiff" then
    a.plaintiff.toLower.containsSubstr value.toLower.toSubstring
  else if field = "defendant" then
    a.defendant.toLower.containsSubstr value.toLower.toSubstring
  else if field = "cause" then
    match value.toInt? with
    | some n => a.causeAction == n
    | none => false
  else if field = "claim" then
    match value.toInt? with
    | some n => a.claims.elem n
    | none => false
  else false

/-- Go `SearchLawsuits`: union of matching rows from the three lists, in
list order, tagged with the list name. -/
def SearchLawsuits (ts : TrialState) (field value : String) : List SearchResult :=
  (ts.activesLawsuits.filter (searchFieldMatch field value)).map
      (fun a => { list := "Active", lawsuit := a }) ++
  (ts.lawsuitsDisWithMerit.filter (searchFieldMatch field value)).map
      (fun a => { list := "Dismissed with merit", lawsuit := a }) ++
  (ts.lawsuitsDisWithoutMerit.filter (searchFieldMatch field value)).map
      (fun a => { list := "Dismissed without merit", lawsuit := a })

/-- `TrialActionQueryResponse`: the trial's answer to a `lawsuit_query`.
The Go field `Match` is a reserved word in Lean and embedded as `matched`. -/
structure QueryResp where
  success : Bool
  stage : String
  matched : String
  message : String
  lawsuitID : String
  districtID : Int
  districtName : String
  trialID : Int
  trialAddr : String
  existentClaims : List Int
  connectedLawsuits : List String
deriving Repr, DecidableEq

/-- Go `handleLawsuitQuery`: dispatch on the stage string; the default
response reports `match:"none"`, an unknown stage flips `success` off. -/
def handleLawsuitQuery (ts : TrialState) (stage : String) (q : ActionQuery) : QueryResp :=
  let base : QueryResp :=
    { success := true
      stage := stage
      matched := "none"
      message := "no corresponding lawsuit found in this trial"
      lawsuitID := ""
      districtID := ts.districtID
      districtName := ts.districtName
      trialID := ts.trialID
      trialAddr := ts.trialAddr
      existentClaims := []
      connectedLawsuits := [] }
  if stage = "res_judicata" then
    match findIdenticalDwM ts "dis_with" q with
    | some a => { base with
        matched := "res_judicata"
        message := "identical lawsuit found in dismissed whith prejudice (merit judgment -> res judicata)."
        lawsuitID := a.id }
    | none => base
  else if stage = "lis_pendens" then
    match findIdenticalDwM ts "actives" q with
    | some a => { base with
        matched := "lis_pendens"
        message := "identical lawsuit found in actives lawsuits (lis pendens)."
        lawsuitID := a.id }
    | none => base
  else if stage = "repeated_request" then
    match findIdenticalDwM ts "dis_without" q with
    | some a => { base with
        matched := "repeated_request"
        message := "identical lawsuit found in dismissed without prejudice (no merit judgment -> repeated request)."
        lawsuitID := a.id }
    | none => base
  else if stage = "joinder" then
    match findJoinder ts q with
    | some (mt, a) => { base with
        matched := mt
        message := if mt = "joinder_contained" then
            "the new lawsuit is CONTAINED in the already existent lawsuit (smaller claim)."
          else
            "the new lawsuit is CONTINENT in relation with already existent lawsuit (bigger claim)."
        lawsuitID := a.id
        existentClaims := a.claims }
    | none => base
  else if stage = "connection" then
    match findConnection ts q with
    | some a => { base with
        matched := "connection"
        message := "found a connected lawsuit (same cause of action and/or common claims)."
        lawsuitID := a.id
        connectedLawsuits := a.connected }
    | none => base
  else
    { base with success := false, message := "unknown stage in the lawsuit_query" }

/-- `TrialCreateActionResponse`. -/
structure CreateResp where
  success : Bool
  message : String
  lawsuitID : String
  districtID : Int
  districtName : String
  trialID : Int
  trialAddr : String
deriving Repr, DecidableEq

/-- Go `handleLawsuitCreate`: validation, then `CreateLawsuit` (with `nil`
connected list), then the per-reason message; only reason "connection" with
a non-empty `related` also registers the connection link.  Returns the new
trial state together with the response. -/
def handleLawsuitCreateST (ts : TrialState) (reason : String) (q : ActionQuery)
    (related : String) (saveOk : Bool) : TrialState × CreateResp :=
  let base : CreateResp :=
    { success := false
      message := ""
      lawsuitID := ""
      districtID := ts.districtID
      districtName := ts.districtName
      trialID := ts.trialID
      trialAddr := ts.trialAddr }
  if q.plaintiff = "" || q.defendant = "" || q.causeID == 0 || q.claims.isEmpty then
    (ts, { base with message := "iInsufficient data for the lawsuit in the lawsuit_create" })
  else
    match createLawsuitOp ts q.plaintiff q.defendant q.causeID q.claims [] saveOk with
    | (ts1, none) =>
      (ts1, { base with message := "error while creating lawsuit" })
    | (ts1, some a) =>
      if reason = "free" then
        let m := "lawsuit created by free distribution"
        (ts1, { base with success := true, lawsuitID := a.id, message := m })
      else if reason = "repeated_request" then
        let m := "lawsuit created as REPEATED REQUEST (related to the lawsuit " ++ related ++ ")"
        (ts1, { base with success := true, lawsuitID := a.id, message := m })
      else if reason = "connection" then
        let ts2 := if related != "" then (AddConnection ts1 a.id related saveOk).1 else ts1
        let m := "lawsuit created as CONNECTED to the lawsuit " ++ related
        (ts2, { base with success := true, lawsuitID := a.id, message := m })
      else
        (ts1, { base with success := true, lawsuitID := a.id, message := "lawsuit created" })

/-- A decoded datagram arriving at the trial's UDP server, one constructor
per `type` tag that `handlePacket` recognizes plus the default branch. -/
inductive TrialPacket where
  | lawsuitQuery (stage : String) (q : ActionQuery)
  | lawsuitCreate (reason : String) (q : ActionQuery) (related : String)
  | lawsuitMergeClaims (i : String) (newClaims : List Int)
  | searchLawsuit (field value : String)
  | workloadInfo
  | unknown (tag : String)
deriving Repr, DecidableEq

/-- Outcome of one trial `handlePacket` call: the in-memory state afterwards,
what was written to the state file (`none` when no successful write
happened), and the `success`/`message` pair of the datagram sent back. -/
structure TrialStep where
  state : TrialState
  persisted : Option TrialState
  success : Bool
  message : String
deriving Repr, DecidableEq

/-- Go `handleLawsuitMergeClaims` body (validation then `AddClaims`). -/
def handleLawsuitMergeClaimsST (ts : TrialState) (i : String)
    (newClaims : List Int) (saveOk : Bool) : TrialStep :=
  if i = "" || newClaims.isEmpty then
    { state := ts, persisted := none, success := false
      message := "Invalid Lawsuit_id or new_claims in the lawsuit_merge_claims" }
  else
    match addClaimsOp ts i newClaims saveOk with
    | (ts', true) =>
      { state := ts', persisted := some ts', success := true
        message := "claims were merged with success to the lawsuit " ++ i }
    | (ts', false) =>
      { state := ts', persisted := none, success := false
        message := "error while merging claims to the lawsuit " ++ i }

/-- Go trial `handlePacket`: dispatch on the `type` tag.  The default branch
answers with `success:true` and a generic notice; it neither mutates nor
persists anything. -/
def trialHandlePacket (ts : TrialState) (p : TrialPacket) (saveOk : Bool) : TrialStep :=
  match p with
  | .lawsuitQuery stage q =>
    let resp := handleLawsuitQuery ts stage q
    { state := ts, persisted := none, success := resp.success, message := resp.message }
  | .lawsuitCreate reason q related =>
    let (ts', resp) := handleLawsuitCreateST ts reason q related saveOk
    { state := ts'
      persisted := if resp.success && saveOk then some ts' else none
      success := resp.success
      message := resp.message }
  | .lawsuitMergeClaims i newClaims =>
    handleLawsuitMergeClaimsST ts i newClaims saveOk
  | .searchLawsuit field value =>
    let results := SearchLawsuits ts field value
    { state := ts, persisted := none, success := true
      message := toString results.length ++ " lawsuits found" }
  | .workloadInfo =>
    { state := ts, persisted := none, success := true
      message := "Trial\x27s workload successfully returned." }
  | .unknown _ =>
    { state := ts, persisted := none, success := true
      message := "Trial received message, but the type is not recognized by the lawsuits\x27 logic." }

/-- Go `CountActives`, the payload of `workload_info`. -/
def CountActives (ts : TrialState) : Nat :=
  ts.activesLawsuits.length

/-- Court-side `District` record (`id, name, address, trials`). -/
structure District where
  id : Int
  name : String
  address : String
  trials : Int
deriving Repr, DecidableEq

/-- Court `Request` wire struct: a `type` tag plus the optional fields. -/
structure CourtRequest where
  type : String
  name : String
  trials : Int
deriving Repr, DecidableEq

/-- Court `Response` wire struct. -/
structure CourtResponse where
  success : Bool
  message : String
  district : Option District
  districts : List District
deriving Repr, DecidableEq

/-- Go court `nextID`: one more than the maximum id on file. -/
def courtNextID (items : List District) : Int :=
  (items.foldl (fun mx d => if d.id > mx then d.id else mx) 0) + 1

/-- Go `GetByName` (exact string comparison). -/
def GetByName (items : List District) (name : String) : Option District :=
  items.find? (fun d => d.name == name)

/-- Go `ListExcept`: every district whose address differs from the caller's. -/
def ListExcept (items : List District) (addr : String) : List District :=
  items.filter (fun d => d.address != addr)

/-- Go `RemoveByName`: drop the first district with that name. -/
def removeDistrictByName : List District → String → Option (District × List District)
  | [], _ => none
  | d :: rest, name =>
    if d.name == name then some (d, rest)
    else (removeDistrictByName rest name).map (fun p => (p.1, d :: p.2))

/-- Go `UpdateTrials`: set the trial count of the first district with that
name. -/
def updateTrialsByName : List District → String → Int → Option (District × List District)
  | [], _, _ => none
  | d :: rest, name, trials =>
    if d.name == name then
      let d' := { d with trials := trials }
      some (d', d' :: rest)
    else (updateTrialsByName rest name trials).map (fun p => (p.1, d :: p.2))

/-- Go court `handlePacket` after JSON decoding: dispatch on `req.type`,
with the sender's source address `sender`.  Persistence is taken as
succeeding.  Returns the registry afterwards and the response sent back. -/
def courtHandlePacket (items : List District) (req : CourtRequest)
    (sender : String) : List District × CourtResponse :=
  if req.type = "list" then
    (items, { success := true, message := "ok", district := none
              districts := ListExcept items sender })
  else if req.type = "create" then
    if req.name = "" || req.trials ≤ 0 then
      (items, { success := false, message := "fields \x27name\x27 and \x27trials\x27 are required"
                district := none, districts := [] })
    else
      match GetByName items req.name with
      | some existing =>
        (items, { success := true, message := "district already existent"
                  district := some existing, districts := [] })
      | none =>
        let newD : District :=
          { id := courtNextID items, name := req.name, address := sender
            trials := req.trials }
        (items ++ [newD],
         { success := true, message := "district created"
           district := some newD, districts := [] })
  else if req.type = "remove" then
    if req.name = "" then
      (items, { success := false, message := "field \x27name\x27 is required"
                district := none, districts := [] })
    else
      match removeDistrictByName items req.name with
      | none =>
        (items, { success := false, message := "district not found"
                  district := none, districts := [] })
      | some (removed, rest) =>
        (rest, { success := true, message := "district removed"
                 district := some removed, districts := [] })
  else if req.type = "update_trials" then
    if req.name = "" then
      (items, { success := false, message := "field \x27name\x27 is required"
                district := none, districts := [] })
    else
      match updateTrialsByName items req.name req.trials with
      | none =>
        (items, { success := false, message := "district not found"
                  district := none, districts := [] })
      | some (updated, rest) =>
        (rest, { success := true, message := "trials number updated"
                 district := some updated, districts := [] })
  else
    (items, { success := false, message := "unknown type of request"
              district := none, districts := [] })

/-- A trial as the district's roster sees it (`Trial{ID, Address}` in
`trials.json`) together with the trial process state reachable at that
address.  Bundling the two models a reliable datagram transport. -/
structure TrialNode where
  address : String
  state : TrialState
deriving Repr, DecidableEq

/-- A peer district as the local mirror sees it, bundled with the trials
that peer owns (again modelling the transport to its address). -/
structure PeerDistrict where
  id : Int
  name : String
  address : String
  trials : List TrialNode
deriving Repr, DecidableEq

/-- The network reachable from one district while it runs the admissibility
pipeline: its own name, its local trial roster (insertion order), and its
mirror of the other districts (insertion order). -/
structure World where
  selfName : String
  localTrials : List TrialNode
  districts : List PeerDistrict
deriving Repr, DecidableEq

/-- The positivity test Go applies to a received query response:
`resp.Success && resp.Match != "" && resp.Match != "none"`. -/
def posMatch (r : QueryResp) : Bool :=
  r.success && r.matched != "" && r.matched != "none"

/-- The patch `verifyLocalTrialsStage` applies to a positive response: an
empty `TrialAddr` is replaced by the roster address. -/
def patchTrialAddr (t : TrialNode) (r : QueryResp) : QueryResp :=
  { r with trialAddr := if r.trialAddr = "" then t.address else r.trialAddr }

/-- Go `verifyLocalTrialsStage`: iterate the roster in order, return the
first positive response, patching an empty `TrialAddr` with the roster
address. -/
def verifyLocalTrialsStage (trials : List TrialNode) (stage : String)
    (q : ActionQuery) : Option QueryResp :=
  match trials with
  | [] => none
  | t :: rest =>
    if posMatch (handleLawsuitQuery t.state stage q) then
      some (patchTrialAddr t (handleLawsuitQuery t.state stage q))
    else
      verifyLocalTrialsStage rest stage q

/-- The `match:"none"` response `handleActionQueryDistrict` fabricates when
its own trials found nothing. -/
def aggregatorNoneResp (stage : String) : QueryResp :=
  { success := true
    stage := stage
    matched := "none"
    message := "No corresponding lawsuit was found in this district."
    lawsuitID := ""
    districtID := 0
    districtName := ""
    trialID := 0
    trialAddr := ""
    existentClaims := []
    connectedLawsuits := [] }

/-- Go `handleActionQueryDistrict`: a district answers a peer's
`lawsuit_query` by scanning all of its own trials for the stage, filling in
its own district identity when the trial left it empty. -/
def handleActionQueryDistrict (p : PeerDistrict) (stage : String)
    (q : ActionQuery) : QueryResp :=
  match verifyLocalTrialsStage p.trials stage q with
  | none => aggregatorNoneResp stage
  | some r =>
    if !posMatch r then aggregatorNoneResp stage
    else if r.districtName = "" || r.districtID == 0 then
      { r with districtID := p.id, districtName := p.name }
    else r

/-- Go `verifyOtherDistrictsStage`: iterate the district mirror in order,
skipping the local district by case-insensitive name and entries with a
blank address; return the first positive aggregated response, patching
absent district identity from the mirror row. -/
def patchDistrictID (d : PeerDistrict) (r : QueryResp) : QueryResp :=
  if r.districtID == 0 then { r with districtID := d.id } else r

def patchDistrictName (d : PeerDistrict) (r : QueryResp) : QueryResp :=
  if r.districtName = "" then { r with districtName := d.name } else r

def verifyOtherDistrictsStage (selfName : String) (districts : List PeerDistrict)
    (stage : String) (q : ActionQuery) : Option QueryResp :=
  match districts with
  | [] => none
  | d :: rest =>
    if eqFold d.name selfName then
      verifyOtherDistrictsStage selfName rest stage q
    else if d.address.trim = "" then
      verifyOtherDistrictsStage selfName rest stage q
    else
      if posMatch (handleActionQueryDistrict d stage q) then
        some (patchDistrictName d (patchDistrictID d (handleActionQueryDistrict d stage q)))
      else
        verifyOtherDistrictsStage selfName rest stage q

/-- The decision the district's filing loop reaches for one candidate:
which outcome is dispatched, at which stage, on the strength of which
response. -/
inductive Decision where
  | reject (stage : String) (resp : QueryResp)
  | createRelated (stage : String) (resp : QueryResp)
  | mergeClaims (resp : QueryResp)
  | freeDistribution
deriving Repr, DecidableEq

/-- Stage 5 of the filing loop (`connection`), literal translation of the
corresponding block of district `main`. -/
def pipelineStage5 (w : World) (q : ActionQuery) : Decision :=
  let loc := verifyLocalTrialsStage w.localTrials "connection" q
  let resolved : Option QueryResp :=
    match loc with
    | some r =>
      if !r.success || r.matched = "" || r.matched = "none" then
        verifyOtherDistrictsStage w.selfName w.districts "connection" q
      else some r
    | none => verifyOtherDistrictsStage w.selfName w.districts "connection" q
  match resolved with
  | some r =>
    if r.success && r.matched = "connection" then .createRelated "connection" r
    else .freeDistribution
  | none => .freeDistribution

/-- Stage 4 of the filing loop (`joinder`). -/
def pipelineStage4 (w : World) (q : ActionQuery) : Decision :=
  let loc := verifyLocalTrialsStage w.localTrials "joinder" q
  let resolved : Option QueryResp :=
    match loc with
    | some r =>
      if !r.success || r.matched = "" || r.matched = "none" then
        verifyOtherDistrictsStage w.selfName w.districts "joinder" q
      else some r
    | none => verifyOtherDistrictsStage w.selfName w.districts "joinder" q
  match resolved with
  | some r =>
    if r.success && (r.matched = "joinder_contained" || r.matched = "joinder_continent") then
      if r.matched = "joinder_contained" then .reject "joinder" r
      else .mergeClaims r
    else pipelineStage5 w q
  | none => pipelineStage5 w q

/-- Stage 3 of the filing loop (`repeated_request`). -/
def pipelineStage3 (w : World) (q : ActionQuery) : Decision :=
  let loc := verifyLocalTrialsStage w.localTrials "repeated_request" q
  let resolved : Option QueryResp :=
    match loc with
    | some r =>
      if !r.success || r.matched = "" || r.matched = "none" then
        verifyOtherDistrictsStage w.selfName w.districts "repeated_request" q
      else some r
    | none => verifyOtherDistrictsStage w.selfName w.districts "repeated_request" q
  match resolved with
  | some r =>
    if r.success && r.matched = "repeated_request" then .createRelated "repeated_request" r
    else pipelineStage4 w q
  | none => pipelineStage4 w q

/-- Stage 2 of the filing loop (`lis_pendens`). -/
def pipelineStage2 (w : World) (q : ActionQuery) : Decision :=
  let loc := verifyLocalTrialsStage w.localTrials "lis_pendens" q
  let resolved : Option QueryResp :=
    match loc with
    | some r =>
      if !r.success || r.matched = "" || r.matched = "none" then
        verifyOtherDistrictsStage w.selfName w.districts "lis_pendens" q
      else some r
    | none => verifyOtherDistrictsStage w.selfName w.districts "lis_pendens" q
  match resolved with
  | some r =>
    if r.success && r.matched = "lis_pendens" then .reject "lis_pendens" r
    else pipelineStage3 w q
  | none => pipelineStage3 w q

/-- Go district `main`, filing branch: stage 1 (`res_judicata`) adopts a
positive local match outright, consults the other districts only when the
local scan was negative, and falls through to the later stages otherwise. -/
def pipelineDecision (w : World) (q : ActionQuery) : Decision :=
  match verifyLocalTrialsStage w.localTrials "res_judicata" q with
  | some r =>
    if r.matched = "res_judicata" then .reject "res_judicata" r
    else if r.success && r.matched = "res_judicata" then .reject "res_judicata" r
    else pipelineStage2 w q
  | none =>
    match verifyOtherDistrictsStage w.selfName w.districts "res_judicata" q with
    | some r =>
      if r.success && r.matched = "res_judicata" then .reject "res_judicata" r
      else pipelineStage2 w q
    | none => pipelineStage2 w q

/-- Go `lawsuitFreeDistribution`'s selection loop: `up` says which trials
answer the `workload_info` query within the timeout; a responding trial
reports `CountActives` of its state; strict `<` keeps the earlier trial on
ties. -/
def pickLeastLoaded (trials : List TrialNode) (up : String → Bool) :
    Option (TrialNode × Nat) :=
  trials.foldl
    (fun acc t =>
      if up t.address then
        match acc with
        | none => some (t, CountActives t.state)
        | some (bt, bw) =>
          if CountActives t.state < bw then some (t, CountActives t.state)
          else some (bt, bw)
      else acc)
    none

/-- A placeholder trial node (only used as the `getD` default on a branch
where the roster is known non-empty). -/
def defaultTrialNode : TrialNode :=
  { address := ""
    state :=
      { districtID := 0, districtName := "", trialID := 0, trialAddr := ""
        nextSeq := 1, activesLawsuits := [], lawsuitsDisWithMerit := []
        lawsuitsDisWithoutMerit := [] } }

/-- Go `lawsuitFreeDistribution`, up to the final `lawsuit_create` call:
empty roster fails; otherwise the least-loaded responding trial is chosen
(ties to the earlier roster entry), falling back to the roster entry at the
random index `randIdx` (`rand.Intn(len(trials))`) when nobody answered.
The second component reports the adopted workload (`none` on the random
fallback). -/
def lawsuitFreeDistribution (trials : List TrialNode) (up : String → Bool)
    (randIdx : Nat) : Except String (TrialNode × Option Nat) :=
  if trials.isEmpty then
    .error "no registered trials in this district"
  else
    match pickLeastLoaded trials up with
    | some (t, w) => .ok (t, some w)
    | none => .ok (trials.getD (randIdx % trials.length) defaultTrialNode, none)

/-- A district roster row (`Trial{ID, Address}` in `trials.json`). -/
structure RosterTrial where
  id : Int
  address : String
deriving Repr, DecidableEq

/-- `DistrictInfoResponse` sent back to a trial's `trial_info`. -/
structure DistrictInfoResp where
  success : Bool
  message : String
  districtID : Int
  districtName : String
  trialID : Int
  trialAddr : String
deriving Repr, DecidableEq

/-- Go `handleTrialInfo`: look the district's own id up in the mirror and
the trial up in the roster. -/
def handleTrialInfo (nameDistrict : String) (dl : List District)
    (tl : List RosterTrial) (tid : Int) : DistrictInfoResp :=
  let districtID := ((dl.find? (fun d => d.name == nameDistrict)).map District.id).getD 0
  match tl.find? (fun t => t.id == tid) with
  | none =>
    { success := false
      message := "Trial with ID " ++ toString tid ++ " not found in this district."
      districtID := 0, districtName := "", trialID := 0, trialAddr := "" }
  | some t =>
    { success := true
      message := "Information from the trial sucessfully obtained."
      districtID := districtID, districtName := nameDistrict
      trialID := t.id, trialAddr := t.address }

/-- A decoded datagram arriving at the district's trials server. -/
inductive DistrictPacket where
  | trialInfo (trialID : Int)
  | lawsuitQuery (stage : String) (q : ActionQuery)
  | unknown (tag : String)
deriving Repr, DecidableEq

/-- The datagram a district's trials server sends back. -/
inductive DistrictReply where
  | info (r : DistrictInfoResp)
  | query (r : QueryResp)
deriving Repr, DecidableEq

/-- Go `startTrialsServer` receive loop, one datagram: `trial_info` and
`lawsuit_query` are answered; every other type tag is only logged and no
response datagram is sent (`none`).  `own` bundles the district's identity
and trials for the aggregator path. -/
def districtServerHandle (own : PeerDistrict) (dl : List District)
    (tl : List RosterTrial) (p : DistrictPacket) : Option DistrictReply :=
  match p with
  | .trialInfo tid => some (.info (handleTrialInfo own.name dl tl tid))
  | .lawsuitQuery stage q => some (.query (handleActionQueryDistrict own stage q))
  | .unknown _ => none

/-- Spec-side reading of the local scan: the first trial in roster order
whose stage answer is positive, with the empty-address patch. -/
def localPositive (stage : String) (q : ActionQuery) (t : TrialNode) : Option QueryResp :=
  if posMatch (handleLawsuitQuery t.state stage q) then
    some (patchTrialAddr t (handleLawsuitQuery t.state stage q))
  else none

/-- Spec-side reading of one peer-district probe: positive aggregated
answer, with the district-identity patch. -/
def peerPositive (stage : String) (q : ActionQuery) (d : PeerDistrict) : Option QueryResp :=
  if posMatch (handleActionQueryDistrict d stage q) then
    some (patchDistrictName d (patchDistrictID d (handleActionQueryDistrict d stage q)))
  else none

/-- Spec-side single-stage query, following the spec text: query every local
trial in roster order first; only if none matched, query every peer
district in roster order, skipping the local district by case-insensitive
name (and rows without an address); adopt the first positive match. -/
def specStageQuery (w : World) (stage : String) (q : ActionQuery) : Option QueryResp :=
  match w.localTrials.findSome? (localPositive stage q) with
  | some r => some r
  | none =>
    (w.districts.filter
        (fun d => !eqFold d.name w.selfName && d.address.trim != "")).findSome?
      (peerPositive stage q)

/-- The spec's enumerated stage order. -/
def stageOrder : List String :=
  ["res_judicata", "lis_pendens", "repeated_request", "joinder", "connection"]

/-- Outcome dispatched for a positive match at a stage: reject for the two
identity bars and for a contained joinder, merge for a continent joinder,
create-related for repeated request and connection. -/
def stageOutcomeSpec (stage : String) (r : QueryResp) : Decision :=
  if stage = "res_judicata" then .reject "res_judicata" r
  else if stage = "lis_pendens" then .reject "lis_pendens" r
  else if stage = "repeated_request" then .createRelated "repeated_request" r
  else if stage = "joinder" then
    if r.matched = "joinder_contained" then .reject "joinder" r else .mergeClaims r
  else .createRelated "connection" r

/-- Spec-side pipeline: the stages strictly in the enumerated order, the
first stage with a positive match anywhere dispatches its outcome and
terminates, and only if no stage matched anywhere is the lawsuit freely
distributed. -/
def specPipeline (w : World) (q : ActionQuery) : Decision :=
  match stageOrder.findSome? (fun s => (specStageQuery w s q).map (fun r => (s, r))) with
  | some (s, r) => stageOutcomeSpec s r
  | none => .freeDistribution

/-- All trials reachable in a world: the local roster and every peer's
roster. -/
def allTrials (w : World) : List TrialNode :=
  w.localTrials ++ (w.districts.map PeerDistrict.trials).flatten

/-- One iteration of Go `lawsuitFreeDistribution`'s selection loop
(`!found || workload < bestWorkload` keeps the earlier trial on ties). -/
def pickStep (up : String → Bool) (acc : Option (TrialNode × Nat)) (t : TrialNode) :
    Option (TrialNode × Nat) :=
  if up t.address then
    match acc with
    | none => some (t, CountActives t.state)
    | some (bt, bw) =>
      if CountActives t.state < bw then some (t, CountActives t.state)
      else some (bt, bw)
  else acc

/-- The positive match strings a trial can report for each stage. -/
def stagePositives (s : String) : List String :=
  if s = "joinder" then ["joinder_contained", "joinder_continent"] else [s]

/-- Example trial Alpha/T2 of the spec's scenario 2: lawsuit 1.2.1
("Ana","Bia",7,{10,20}) dismissed without merit. -/
def rrWorldTrial : TrialNode :=
  { address := "127.0.0.1:9102"
    state :=
      { districtID := 1, districtName := "Alpha", trialID := 2
        trialAddr := "127.0.0.1:9102", nextSeq := 2
        activesLawsuits := [], lawsuitsDisWithMerit := []
        lawsuitsDisWithoutMerit :=
          [{ id := "1.2.1", plaintiff := "Ana", defendant := "Bia", causeAction := 7
             claims := [10, 20], connected := [] }] } }

/-- Example world: district Alpha with the single trial above, no peers. -/
def rrWorld : World :=
  { selfName := "Alpha", localTrials := [rrWorldTrial], districts := [] }

/-- Example candidate of scenario 2: identical to lawsuit 1.2.1. -/
def rrQuery : ActionQuery :=
  { plaintiff := "Ana", defendant := "Bia", causeID := 7, claims := [10, 20] }

/-- The repeated-request response the pipeline adopts in the example world. -/
def rrResp : QueryResp :=
  { success := true, stage := "repeated_request", matched := "repeated_request"
    message := "identical lawsuit found in dismissed without prejudice (no merit judgment -> repeated request)."
    lawsuitID := "1.2.1", districtID := 1, districtName := "Alpha", trialID := 2
    trialAddr := "127.0.0.1:9102", existentClaims := [], connectedLawsuits := [] }

/-! ## Lemmas about the claim-set comparisons -/

theorem sameIntSet_iff_perm (a b : List Int) : sameIntSet a b = true ↔ a.Perm b :=
  List.isPerm_iff

theorem sameIntSet_toFinset {a b : List Int} (ha : a.Nodup) (hb : b.Nodup) :
    sameIntSet a b = true ↔ a.toFinset = b.toFinset := by
  rw [sameIntSet_iff_perm]
  constructor
  · exact fun h => List.toFinset_eq_of_perm a b h
  · exact fun h => List.perm_of_nodup_nodup_toFinset_eq ha hb h

theorem isSubset_iff_subset {a b : List Int} (ha : a.Nodup) (hb : b.Nodup) :
    isSubset a b = true ↔ a.toFinset ⊆ b.toFinset := by
  unfold isSubset
  rw [Bool.and_eq_true, decide_eq_true_iff, List.all_eq_true]
  constructor
  · rintro ⟨-, h⟩ x hx
    rw [List.mem_toFinset] at hx
    have := h x hx
    rw [List.elem_iff] at this
    rwa [List.mem_toFinset]
  · intro h
    refine ⟨?_, fun x hx => ?_⟩
    · calc a.length = a.toFinset.card := (List.toFinset_card_of_nodup ha).symm
        _ ≤ b.toFinset.card := Finset.card_le_card h
        _ = b.length := List.toFinset_card_of_nodup hb
    · rw [List.elem_iff]
      have := h (List.mem_toFinset.mpr hx)
      rwa [List.mem_toFinset] at this

theorem hasOverlap_iff (a b : List Int) :
    hasOverlap a b = true ↔ ∃ x, x ∈ a ∧ x ∈ b := by
  unfold hasOverlap
  rw [List.any_eq_true]
  constructor
  · rintro ⟨x, hxb, hxa⟩
    exact ⟨x, List.elem_iff.mp hxa, hxb⟩
  · rintro ⟨x, hxa, hxb⟩
    exact ⟨x, hxb, List.elem_iff.mpr hxa⟩

/-! ## C2: the joinder predicate -/

theorem joinderRow_eq_some {q : ActionQuery} {a x : Lawsuit} {mt : String}
    (hq : q.claims.Nodup) (ha : a.claims.Nodup)
    (h : joinderRow q a = some (mt, x)) :
    x = a ∧
    eqFold a.plaintiff q.plaintiff = true ∧
    eqFold a.defendant q.defendant = true ∧
    a.causeAction = q.causeID ∧
    a.claims.toFinset ≠ q.claims.toFinset ∧
    (mt = "joinder_contained" ↔ q.claims.toFinset ⊂ a.claims.toFinset) ∧
    (mt = "joinder_continent" ↔ a.claims.toFinset ⊂ q.claims.toFinset) := by
  unfold joinderRow at h
  by_cases hpl : eqFold a.plaintiff q.plaintiff = true
  swap
  · simp [hpl] at h
  rw [hpl] at h
  by_cases hdf : eqFold a.defendant q.defendant = true
  swap
  · simp [hdf] at h
  rw [hdf] at h
  simp only [Bool.not_true, Bool.false_eq_true, if_false] at h
  by_cases hca : a.causeAction = q.causeID
  swap
  · simp [hca] at h
  rw [if_neg (by simpa using hca)] at h
  by_cases heq : sameIntSet a.claims q.claims = true
  · simp [heq] at h
  rw [if_neg (by simpa using heq)] at h
  have hne : a.claims.toFinset ≠ q.claims.toFinset := by
    intro hfin
    exact heq ((sameIntSet_toFinset ha hq).mpr hfin)
  by_cases hsub : isSubset q.claims a.claims = true
  · rw [if_pos hsub] at h
    obtain ⟨hmt, hx⟩ : mt = "joinder_contained" ∧ x = a := by
      constructor <;> { injection h with h'; cases h'; rfl }
    subst hmt
    have hss : q.claims.toFinset ⊂ a.claims.toFinset :=
      lt_of_le_of_ne ((isSubset_iff_subset hq ha).mp hsub) (Ne.symm hne)
    refine ⟨hx, hpl, hdf, hca, hne, ⟨fun _ => hss, fun _ => rfl⟩, ?_, ?_⟩
    · intro hbad
      exact absurd hbad (by decide)
    · intro hss'
      exact absurd (hss.subset.antisymm hss'.subset) (Ne.symm hne)
  · rw [if_neg hsub] at h
    by_cases hsup : isSubset a.claims q.claims = true
    swap
    · simp [hsup] at h
    rw [if_pos hsup] at h
    obtain ⟨hmt, hx⟩ : mt = "joinder_continent" ∧ x = a := by
      constructor <;> { injection h with h'; cases h'; rfl }
    subst hmt
    have hss : a.claims.toFinset ⊂ q.claims.toFinset :=
      lt_of_le_of_ne ((isSubset_iff_subset ha hq).mp hsup) hne
    refine ⟨hx, hpl, hdf, hca, hne, ?_, ⟨fun _ => hss, fun _ => rfl⟩⟩
    constructor
    · intro hbad
      exact absurd hbad (by decide)
    · intro hss'
      exact absurd ((isSubset_iff_subset hq ha).mpr hss'.subset) (by simpa using hsub)

/-- C2.  For every candidate and every trial, the joinder stage reports a
verdict only against an active lawsuit with the same parties
(case-insensitively) and the same cause whose claims differ from the
candidate's as a set; the verdict is `joinder_contained` exactly when the
candidate's claims are a strict subset of the matched lawsuit's, and
`joinder_continent` exactly when the matched lawsuit's claims are a strict
subset of the candidate's (claim lists are duplicate-free, as the data
model's set semantics prescribes). -/
theorem joinder_stage_verdict_characterized (ts : TrialState) (q : ActionQuery)
    (hq : q.claims.Nodup) (hrows : ∀ a ∈ ts.activesLawsuits, a.claims.Nodup)
    (mt : String) (a : Lawsuit) (h : findJoinder ts q = some (mt, a)) :
    a ∈ ts.activesLawsuits ∧
    eqFold a.plaintiff q.plaintiff = true ∧
    eqFold a.defendant q.defendant = true ∧
    a.causeAction = q.causeID ∧
    a.claims.toFinset ≠ q.claims.toFinset ∧
    (mt = "joinder_contained" ↔ q.claims.toFinset ⊂ a.claims.toFinset) ∧
    (mt = "joinder_continent" ↔ a.claims.toFinset ⊂ q.claims.toFinset) := by
  obtain ⟨row, hrow, hres⟩ := List.exists_of_findSome?_eq_some h
  obtain ⟨hx, hpl, hdf, hca, hne, hcont, hctn⟩ :=
    joinderRow_eq_some hq (hrows row hrow) hres
  rcases hx with rfl
  exact ⟨hrow, hpl, hdf, hca, hne, hcont, hctn⟩

/-- Concrete instance of the joinder characterization: candidate
("Ana","Bia",7,{10,20}) against one active lawsuit ("ana","bia",7,{10})
yields `joinder_continent`. -/
theorem joinder_stage_verdict_characterized_witness :
    let a0 : Lawsuit :=
      { id := "1.1.5", plaintiff := "ana", defendant := "bia", causeAction := 7
        claims := [10], connected := [] }
    let ts0 : TrialState :=
      { districtID := 1, districtName := "Alpha", trialID := 1, trialAddr := ""
        nextSeq := 6, activesLawsuits := [a0], lawsuitsDisWithMerit := []
        lawsuitsDisWithoutMerit := [] }
    let q0 : ActionQuery :=
      { plaintiff := "Ana", defendant := "Bia", causeID := 7, claims := [10, 20] }
    a0 ∈ ts0.activesLawsuits ∧
    eqFold a0.plaintiff q0.plaintiff = true ∧
    eqFold a0.defendant q0.defendant = true ∧
    a0.causeAction = q0.causeID ∧
    a0.claims.toFinset ≠ q0.claims.toFinset ∧
    ("joinder_continent" = "joinder_contained" ↔ q0.claims.toFinset ⊂ a0.claims.toFinset) ∧
    ("joinder_continent" = "joinder_continent" ↔ a0.claims.toFinset ⊂ q0.claims.toFinset) :=
  joinder_stage_verdict_characterized _ _ (by decide) (by decide) _ _ (by decide)

/-! ## C3: the connection predicate -/

theorem connectionRow_eq_some {q : ActionQuery} {a x : Lawsuit}
    (h : connectionRow q a = some x) :
    x = a ∧
    ¬(eqFold a.plaintiff q.plaintiff = true ∧ eqFold a.defendant q.defendant = true ∧
       a.causeAction = q.causeID) ∧
    (a.causeAction = q.causeID ∨ ∃ c, c ∈ a.claims ∧ c ∈ q.claims) := by
  unfold connectionRow at h
  by_cases hskip : (eqFold a.plaintiff q.plaintiff && eqFold a.defendant q.defendant &&
      (a.causeAction == q.causeID)) = true
  · simp [hskip] at h
  rw [if_neg hskip] at h
  by_cases hhit : ((a.causeAction == q.causeID) || hasOverlap a.claims q.claims) = true
  swap
  · simp [hhit] at h
  rw [if_pos hhit] at h
  injection h with h'
  subst h'
  refine ⟨rfl, ?_, ?_⟩
  · rintro ⟨h1, h2, h3⟩
    exact hskip (by simp [h1, h2, h3])
  · rcases Bool.or_eq_true _ _ |>.mp hhit with hc | hov
    · exact Or.inl (by simpa using hc)
    · exact Or.inr ((hasOverlap_iff _ _).mp hov)

theorem connectionRow_isSome_iff (q : ActionQuery) (a : Lawsuit) :
    (connectionRow q a).isSome = true ↔
    (¬(eqFold a.plaintiff q.plaintiff = true ∧ eqFold a.defendant q.defendant = true ∧
        a.causeAction = q.causeID) ∧
     (a.causeAction = q.causeID ∨ ∃ c, c ∈ a.claims ∧ c ∈ q.claims)) := by
  constructor
  · intro h
    obtain ⟨x, hx⟩ := Option.isSome_iff_exists.mp h
    obtain ⟨-, h1, h2⟩ := connectionRow_eq_some hx
    exact ⟨h1, h2⟩
  · rintro ⟨hskip, hhit⟩
    unfold connectionRow
    rw [if_neg, if_pos]
    · rfl
    · rcases hhit with hc | hov
      · simp [hc]
      · simp [(hasOverlap_iff _ _).mpr hov]
    · intro hbad
      rw [Bool.and_eq_true, Bool.and_eq_true] at hbad
      exact hskip ⟨hbad.1.1, hbad.1.2, by simpa using hbad.2⟩

/-- C3.  The connection stage never matches an active lawsuit whose
plaintiff, defendant and cause all equal the candidate's (such rows are
skipped), and it finds a match exactly when some active lawsuit is not
skipped and has either the same cause or a non-empty claims overlap. -/
theorem connection_stage_characterized (ts : TrialState) (q : ActionQuery) :
    (∀ a, findConnection ts q = some a →
      a ∈ ts.activesLawsuits ∧
      ¬(eqFold a.plaintiff q.plaintiff = true ∧ eqFold a.defendant q.defendant = true ∧
         a.causeAction = q.causeID) ∧
      (a.causeAction = q.causeID ∨ ∃ c, c ∈ a.claims ∧ c ∈ q.claims)) ∧
    ((findConnection ts q).isSome = true ↔
      ∃ a ∈ ts.activesLawsuits,
        ¬(eqFold a.plaintiff q.plaintiff = true ∧ eqFold a.defendant q.defendant = true ∧
           a.causeAction = q.causeID) ∧
        (a.causeAction = q.causeID ∨ ∃ c, c ∈ a.claims ∧ c ∈ q.claims)) := by
  constructor
  · intro a h
    obtain ⟨row, hrow, hres⟩ := List.exists_of_findSome?_eq_some h
    obtain ⟨hx, h1, h2⟩ := connectionRow_eq_some hres
    rcases hx with rfl
    exact ⟨hrow, h1, h2⟩
  · rw [findConnection, List.findSome?_isSome_iff]
    constructor
    · rintro ⟨a, ha, hsome⟩
      exact ⟨a, ha, (connectionRow_isSome_iff q a).mp hsome⟩
    · rintro ⟨a, ha, hprop⟩
      exact ⟨a, ha, (connectionRow_isSome_iff q a).mpr hprop⟩

/-- Concrete instance of the connection characterization: candidate
("Eve","Frank",9,{41}) against active ("Carlos","Dora",9,{40}) matches by
same cause, and the match-existence equivalence holds at that state. -/
theorem connection_stage_characterized_witness :
    let a0 : Lawsuit :=
      { id := "2.1.1", plaintiff := "Carlos", defendant := "Dora", causeAction := 9
        claims := [40], connected := [] }
    let ts0 : TrialState :=
      { districtID := 2, districtName := "Beta", trialID := 1, trialAddr := ""
        nextSeq := 2, activesLawsuits := [a0], lawsuitsDisWithMerit := []
        lawsuitsDisWithoutMerit := [] }
    let q0 : ActionQuery :=
      { plaintiff := "Eve", defendant := "Frank", causeID := 9, claims := [41] }
    a0 ∈ ts0.activesLawsuits ∧
    ¬(eqFold a0.plaintiff q0.plaintiff = true ∧ eqFold a0.defendant q0.defendant = true ∧
       a0.causeAction = q0.causeID) ∧
    (a0.causeAction = q0.causeID ∨ ∃ c, c ∈ a0.claims ∧ c ∈ q0.claims) :=
  (connection_stage_characterized _ _).1 _ (by decide)

/-! ## C5: merge_claims -/

theorem addUnique_toFinset (old : List Int) (x : Int) :
    (addUnique old x).toFinset = insert x old.toFinset := by
  unfold addUnique
  by_cases hx : x ∈ old
  · rw [if_pos (List.elem_iff.mpr hx)]
    exact (Finset.insert_eq_self.mpr (List.mem_toFinset.mpr hx)).symm
  · rw [if_neg (by simpa [List.elem_iff] using hx)]
    simp only [List.toFinset_append, List.toFinset_cons, List.toFinset_nil]
    rw [Finset.union_comm]
    rfl

theorem foldl_addUnique_toFinset (X : List Int) (old : List Int) :
    (X.foldl addUnique old).toFinset = old.toFinset ∪ X.toFinset := by
  induction X generalizing old with
  | nil => simp
  | cons x X ih =>
    rw [List.foldl_cons, ih, addUnique_toFinset]
    simp only [List.toFinset_cons]
    ext y
    simp only [Finset.mem_union, Finset.mem_insert]
    tauto

theorem foldl_addUnique_noop (X : List Int) (old : List Int)
    (h : ∀ x ∈ X, x ∈ old) : X.foldl addUnique old = old := by
  induction X with
  | nil => rfl
  | cons x X ih =>
    rw [List.foldl_cons]
    have hx : addUnique old x = old := by
      unfold addUnique
      rw [if_pos (List.elem_iff.mpr (h x (List.mem_cons_self x X)))]
    rw [hx]
    exact ih (fun y hy => h y (List.mem_cons_of_mem x hy))

theorem foldl_addUnique_idem (X : List Int) (old : List Int) :
    X.foldl addUnique (X.foldl addUnique old) = X.foldl addUnique old := by
  apply foldl_addUnique_noop
  intro x hx
  have : x ∈ (X.foldl addUnique old).toFinset := by
    rw [foldl_addUnique_toFinset]
    exact Finset.mem_union_right _ (List.mem_toFinset.mpr hx)
  exact List.mem_toFinset.mp this

theorem addClaimsList_eq_none (l : List Lawsuit) (i : String) (X : List Int) :
    addClaimsList l i X = none ↔ ∀ a ∈ l, a.id ≠ i := by
  induction l with
  | nil => simp [addClaimsList]
  | cons a rest ih =>
    unfold addClaimsList
    by_cases hid : a.id = i
    · simp [hid]
    · rw [if_neg (by simpa using hid)]
      simp only [Option.map_eq_none', ih, List.mem_cons]
      constructor
      · rintro h b (rfl | hb)
        · exact hid
        · exact h b hb
      · intro h b hb
        exact h b (Or.inr hb)

theorem addClaimsList_eq_some (l : List Lawsuit) (i : String) (X : List Int)
    (l' : List Lawsuit) (h : addClaimsList l i X = some l') :
    ∃ pre a post,
      l = pre ++ a :: post ∧ a.id = i ∧ (∀ b ∈ pre, b.id ≠ i) ∧
      l' = pre ++ { a with claims := X.foldl addUnique a.claims } :: post := by
  induction l generalizing l' with
  | nil => simp [addClaimsList] at h
  | cons a rest ih =>
    unfold addClaimsList at h
    by_cases hid : a.id = i
    · rw [if_pos (by simpa using hid)] at h
      injection h with h'
      exact ⟨[], a, rest, rfl, hid, by simp, h'.symm⟩
    · rw [if_neg (by simpa using hid)] at h
      obtain ⟨rest', hrest', hcons⟩ := Option.map_eq_some'.mp h
      obtain ⟨pre, b, post, hsplit, hb, hpre, hres⟩ := ih rest' hrest'
      refine ⟨a :: pre, b, post, by simp [hsplit], hb, ?_, by simp [← hcons, hres]⟩
      intro c hc
      rcases List.mem_cons.mp hc with rfl | hc'
      · exact hid
      · exact hpre c hc' 

theorem addClaimsList_idem (l : List Lawsuit) (i : String) (X : List Int)
    (l' : List Lawsuit) (h : addClaimsList l i X = some l') :
    addClaimsList l' i X = some l' := by
  induction l generalizing l' with
  | nil => simp [addClaimsList] at h
  | cons a rest ih =>
    unfold addClaimsList at h
    by_cases hid : a.id = i
    · rw [if_pos (by simpa using hid)] at h
      injection h with h'
      subst h'
      unfold addClaimsList
      rw [if_pos (by simpa using hid)]
      rw [foldl_addUnique_idem]
    · rw [if_neg (by simpa using hid)] at h
      obtain ⟨rest', hrest', hcons⟩ := Option.map_eq_some'.mp h
      subst hcons
      unfold addClaimsList
      rw [if_neg (by simpa using hid), ih rest' hrest']
      rfl

/-- C5.  `merge_claims(id, X)` on a trial store: it fails with not-found
exactly when no active lawsuit has the id (so it is never applied to the
dismissed lists, which are untouched in every case); on success only the
matched active row changes, its claims become `old ∪ X` as a set, and
repeating the very same call leaves the state unchanged. -/
theorem merge_claims_union_idempotent (st : TrialState) (i : String) (X : List Int) :
    (AddClaims st i X = none ↔ ∀ a ∈ st.activesLawsuits, a.id ≠ i) ∧
    (∀ st', AddClaims st i X = some st' →
      (st'.districtID = st.districtID ∧ st'.districtName = st.districtName ∧
       st'.trialID = st.trialID ∧ st'.trialAddr = st.trialAddr ∧
       st'.nextSeq = st.nextSeq ∧
       st'.lawsuitsDisWithMerit = st.lawsuitsDisWithMerit ∧
       st'.lawsuitsDisWithoutMerit = st.lawsuitsDisWithoutMerit) ∧
      (∃ pre a post,
        st.activesLawsuits = pre ++ a :: post ∧
        a.id = i ∧ (∀ b ∈ pre, b.id ≠ i) ∧
        st'.activesLawsuits =
          pre ++ { a with claims := X.foldl addUnique a.claims } :: post ∧
        (X.foldl addUnique a.claims).toFinset = a.claims.toFinset ∪ X.toFinset) ∧
      AddClaims st' i X = some st') := by
  constructor
  · unfold AddClaims
    rw [Option.map_eq_none']
    exact addClaimsList_eq_none st.activesLawsuits i X
  · intro st' h
    unfold AddClaims at h
    obtain ⟨l', hl', hst'⟩ := Option.map_eq_some'.mp h
    obtain ⟨pre, a, post, hsplit, hid, hpre, hres⟩ :=
      addClaimsList_eq_some st.activesLawsuits i X l' hl'
    subst hst'
    refine ⟨⟨rfl, rfl, rfl, rfl, rfl, rfl, rfl⟩, ?_, ?_⟩
    · exact ⟨pre, a, post, hsplit, hid, hpre, by simpa using hres,
        foldl_addUnique_toFinset X a.claims⟩
    · unfold AddClaims
      rw [show ({ st with activesLawsuits := l' } : TrialState).activesLawsuits = l' from rfl]
      rw [addClaimsList_idem st.activesLawsuits i X l' hl']
      rfl

/-- Concrete instance: merging {10,20,30} into active lawsuit 1.1.5 with
claims {10} yields claims equal to {10} ∪ {10,20,30} as a set, leaves the
dismissed lists untouched, and repeating the call is a no-op. -/
theorem merge_claims_union_idempotent_witness :
    let a0 : Lawsuit :=
      { id := "1.1.5", plaintiff := "Ana", defendant := "Bia", causeAction := 7
        claims := [10], connected := [] }
    let st0 : TrialState :=
      { districtID := 1, districtName := "Alpha", trialID := 1, trialAddr := ""
        nextSeq := 6, activesLawsuits := [a0], lawsuitsDisWithMerit := []
        lawsuitsDisWithoutMerit := [] }
    let st1 : TrialState :=
      { st0 with activesLawsuits := [{ a0 with claims := [10, 20, 30] }] }
    (st1.districtID = st0.districtID ∧ st1.districtName = st0.districtName ∧
     st1.trialID = st0.trialID ∧ st1.trialAddr = st0.trialAddr ∧
     st1.nextSeq = st0.nextSeq ∧
     st1.lawsuitsDisWithMerit = st0.lawsuitsDisWithMerit ∧
     st1.lawsuitsDisWithoutMerit = st0.lawsuitsDisWithoutMerit) ∧
    (∃ pre a post,
      st0.activesLawsuits = pre ++ a :: post ∧
      a.id = "1.1.5" ∧ (∀ b ∈ pre, b.id ≠ "1.1.5") ∧
      st1.activesLawsuits =
        pre ++ { a with claims := [10, 20, 30].foldl addUnique a.claims } :: post ∧
      ([10, 20, 30].foldl addUnique a.claims).toFinset =
        a.claims.toFinset ∪ ([10, 20, 30] : List Int).toFinset) ∧
    AddClaims st1 "1.1.5" [10, 20, 30] = some st1 :=
  (merge_claims_union_idempotent _ "1.1.5" [10, 20, 30]).2 _ (by decide)

/-! ## C6: persistence failure is not rolled back -/

theorem AddConnection_state_saveOk (ts : TrialState) (i o : String) (b : Bool) :
    (AddConnection ts i o b).1 = (AddConnection ts i o true).1 := by
  unfold AddConnection
  split
  · rfl
  · split <;> rfl

/-- C6 counterexample to the claim as stated: with an empty store, a create
whose state-file write fails does reply with an error, but the in-memory
state is NOT the pre-mutation snapshot (the new lawsuit and the bumped
`next_seq` survive). -/
theorem persistence_failure_rollback_counterexample :
    let ex : TrialState :=
      { districtID := 1, districtName := "Alpha", trialID := 1, trialAddr := ""
        nextSeq := 1, activesLawsuits := [], lawsuitsDisWithMerit := []
        lawsuitsDisWithoutMerit := [] }
    (createLawsuitOp ex "Ana" "Bia" 7 [10] [] false).2 = none ∧
    (createLawsuitOp ex "Ana" "Bia" 7 [10] [] false).1 ≠ ex ∧
    (createLawsuitOp ex "Ana" "Bia" 7 [10] [] false).1.nextSeq = 2 := by
  refine ⟨rfl, ?_, rfl⟩
  intro h
  have := congrArg TrialState.nextSeq h
  simp [createLawsuitOp, CreateLawsuit] at this

/-- C6 amended.  When the state-file write fails, every mutating trial-store
operation replies failure (error return / `success:false`) and persists
nothing, but the in-memory state keeps the mutation: it equals the state of
the successful-write run, not the pre-mutation snapshot. -/
theorem persistence_failure_keeps_mutation (ts : TrialState) (reason : String)
    (q : ActionQuery) (related i : String) (X : List Int)
    (p d : String) (c : Int) (cl : List Int) (cn : List String) :
    (createLawsuitOp ts p d c cl cn false).2 = none ∧
    (createLawsuitOp ts p d c cl cn false).1 = (createLawsuitOp ts p d c cl cn true).1 ∧
    (dismissWithMeritOp ts i false).2 = none ∧
    (dismissWithMeritOp ts i false).1 = (dismissWithMeritOp ts i true).1 ∧
    (dismissWithoutMeritOp ts i false).2 = none ∧
    (dismissWithoutMeritOp ts i false).1 = (dismissWithoutMeritOp ts i true).1 ∧
    (addClaimsOp ts i X false).2 = false ∧
    (addClaimsOp ts i X false).1 = (addClaimsOp ts i X true).1 ∧
    (trialHandlePacket ts (.lawsuitCreate reason q related) false).success = false ∧
    (trialHandlePacket ts (.lawsuitCreate reason q related) false).persisted = none ∧
    (trialHandlePacket ts (.lawsuitCreate reason q related) false).state =
      (if (q.plaintiff = "" || q.defendant = "" || q.causeID == 0 || q.claims.isEmpty) then ts
       else (CreateLawsuit ts q.plaintiff q.defendant q.causeID q.claims []).1) ∧
    (trialHandlePacket ts (.lawsuitMergeClaims i X) false).success = false ∧
    (trialHandlePacket ts (.lawsuitMergeClaims i X) false).persisted = none ∧
    (trialHandlePacket ts (.lawsuitMergeClaims i X) false).state =
      (trialHandlePacket ts (.lawsuitMergeClaims i X) true).state := by
  have hcrs : (handleLawsuitCreateST ts reason q related false).2.success = false := by
    unfold handleLawsuitCreateST
    split
    · rfl
    · rfl
  have hcrst : (handleLawsuitCreateST ts reason q related false).1 =
      (if (q.plaintiff = "" || q.defendant = "" || q.causeID == 0 || q.claims.isEmpty) then ts
       else (CreateLawsuit ts q.plaintiff q.defendant q.causeID q.claims []).1) := by
    unfold handleLawsuitCreateST
    split
    · rfl
    · rfl
  have hmg : ∀ sv : Bool, trialHandlePacket ts (.lawsuitMergeClaims i X) sv =
      (if (i = "" || X.isEmpty) then
        { state := ts, persisted := none, success := false
          message := "Invalid Lawsuit_id or new_claims in the lawsuit_merge_claims" }
      else
        match addClaimsOp ts i X sv with
        | (ts', true) =>
          { state := ts', persisted := some ts', success := true
            message := "claims were merged with success to the lawsuit " ++ i }
        | (ts', false) =>
          { state := ts', persisted := none, success := false
            message := "error while merging claims to the lawsuit " ++ i }) := by
    intro sv
    rfl
  have haco : ∀ b, addClaimsOp ts i X b = ((addClaimsOp ts i X true).1,
      b && (addClaimsOp ts i X true).2) := by
    intro b
    unfold addClaimsOp
    split <;> simp_all
  have hcrp : ∀ sv : Bool, trialHandlePacket ts (.lawsuitCreate reason q related) sv =
      (match handleLawsuitCreateST ts reason q related sv with
       | (ts', resp) =>
         { state := ts', persisted := if resp.success && sv then some ts' else none
           success := resp.success, message := resp.message }) := by
    intro sv
    rfl
  refine ⟨rfl, rfl, ?_, ?_, ?_, ?_, ?_, ?_, ?_, ?_, ?_, ?_, ?_, ?_⟩
  · unfold dismissWithMeritOp
    split <;> rfl
  · unfold dismissWithMeritOp
    split <;> rfl
  · unfold dismissWithoutMeritOp
    split <;> rfl
  · unfold dismissWithoutMeritOp
    split <;> rfl
  · rw [haco]
    simp
  · rw [haco false]
  · rw [hcrp false]
    rcases hc : handleLawsuitCreateST ts reason q related false with ⟨ts1, resp1⟩
    have : resp1.success = false := by rw [← hcrs, hc]
    simpa using this
  · rw [hcrp false]
    rcases hc : handleLawsuitCreateST ts reason q related false with ⟨ts1, resp1⟩
    simp
  · rw [hcrp false]
    rcases hc : handleLawsuitCreateST ts reason q related false with ⟨ts1, resp1⟩
    show ts1 = _
    rw [← hcrst, hc]
  · rw [hmg false]
    split
    · rfl
    · rw [haco false]
      simp
  · rw [hmg false]
    split
    · rfl
    · rw [haco false]
      simp
  · rw [hmg false, hmg true]
    split
    · rfl
    · rw [haco false]
      simp only [Bool.false_and]
      rcases ht : addClaimsOp ts i X true with ⟨t1, t2⟩
      have ht1 : t1 = (addClaimsOp ts i X true).1 := by rw [ht]
      cases t2 <;> simp [ht1]

/-! ## C7: unknown message type -/

/-- C7 counterexample to the claim as stated: on an unrecognized type tag
the trial answers `success:true` (not `false`) with its own notice, the
court's message is "unknown type of request" (not "unknown type"), and the
district's trials server sends no reply datagram at all. -/
theorem unknown_type_claim_counterexample :
    let ts : TrialState :=
      { districtID := 1, districtName := "Alpha", trialID := 1, trialAddr := ""
        nextSeq := 1, activesLawsuits := [], lawsuitsDisWithMerit := []
        lawsuitsDisWithoutMerit := [] }
    (trialHandlePacket ts (.unknown "mystery") true).success = true ∧
    (trialHandlePacket ts (.unknown "mystery") true).message ≠ "unknown type" ∧
    (courtHandlePacket [] { type := "mystery", name := "", trials := 0 } "1.2.3.4:9").2.success = false ∧
    (courtHandlePacket [] { type := "mystery", name := "", trials := 0 } "1.2.3.4:9").2.message ≠ "unknown type" ∧
    districtServerHandle { id := 1, name := "Alpha", address := "", trials := [] } [] []
      (.unknown "mystery") = none := by
  exact ⟨rfl, by decide, rfl, by decide, rfl⟩

/-- C7 amended.  On an unrecognized type tag: the court replies
`success:false` with message "unknown type of request" and leaves its
registry unchanged; the trial replies `success:true` with a fixed notice,
mutating and persisting nothing; the district's trials server sends no
response datagram; all three handlers return normally. -/
theorem unknown_type_responses (ts : TrialState) (saveOk : Bool) (tag : String)
    (items : List District) (req : CourtRequest) (sender : String)
    (own : PeerDistrict) (dl : List District) (tl : List RosterTrial)
    (h1 : req.type ≠ "list") (h2 : req.type ≠ "create")
    (h3 : req.type ≠ "remove") (h4 : req.type ≠ "update_trials") :
    (trialHandlePacket ts (.unknown tag) saveOk).success = true ∧
    (trialHandlePacket ts (.unknown tag) saveOk).message =
      "Trial received message, but the type is not recognized by the lawsuits\x27 logic." ∧
    (trialHandlePacket ts (.unknown tag) saveOk).state = ts ∧
    (trialHandlePacket ts (.unknown tag) saveOk).persisted = none ∧
    (courtHandlePacket items req sender).2.success = false ∧
    (courtHandlePacket items req sender).2.message = "unknown type of request" ∧
    (courtHandlePacket items req sender).1 = items ∧
    districtServerHandle own dl tl (.unknown tag) = none := by
  unfold courtHandlePacket
  rw [if_neg h1, if_neg h2, if_neg h3, if_neg h4]
  exact ⟨rfl, rfl, rfl, rfl, rfl, rfl, rfl, rfl⟩

/-- Concrete instance of the amended unknown-type behavior at tag "mystery". -/
theorem unknown_type_responses_witness :
    let ts : TrialState :=
      { districtID := 1, districtName := "Alpha", trialID := 1, trialAddr := ""
        nextSeq := 1, activesLawsuits := [], lawsuitsDisWithMerit := []
        lawsuitsDisWithoutMerit := [] }
    let req : CourtRequest := { type := "mystery", name := "", trials := 0 }
    (trialHandlePacket ts (.unknown "mystery") true).success = true ∧
    (trialHandlePacket ts (.unknown "mystery") true).message =
      "Trial received message, but the type is not recognized by the lawsuits\x27 logic." ∧
    (trialHandlePacket ts (.unknown "mystery") true).state = ts ∧
    (trialHandlePacket ts (.unknown "mystery") true).persisted = none ∧
    (courtHandlePacket [] req "1.2.3.4:9").2.success = false ∧
    (courtHandlePacket [] req "1.2.3.4:9").2.message = "unknown type of request" ∧
    (courtHandlePacket [] req "1.2.3.4:9").1 = [] ∧
    districtServerHandle { id := 1, name := "Alpha", address := "", trials := [] } [] []
      (.unknown "mystery") = none :=
  unknown_type_responses _ true "mystery" [] _ "1.2.3.4:9"
    { id := 1, name := "Alpha", address := "", trials := [] } [] []
    (by decide) (by decide) (by decide) (by decide)

/-! ## C9: court create -/

/-- C9.  A court `create`: rejected with `success:false` when the name is
empty or `trials ≤ 0`; idempotent success returning the existing record and
an unchanged registry when the name already exists; otherwise the district
is inserted keyed by name with its address taken from the sender. -/
theorem court_create_characterized (items : List District) (req : CourtRequest)
    (sender : String) (htype : req.type = "create") :
    (req.name = "" ∨ req.trials ≤ 0 →
      courtHandlePacket items req sender =
        (items, { success := false, message := "fields \x27name\x27 and \x27trials\x27 are required"
                  district := none, districts := [] })) ∧
    (req.name ≠ "" → 0 < req.trials →
      ∀ d, GetByName items req.name = some d →
        courtHandlePacket items req sender =
          (items, { success := true, message := "district already existent"
                    district := some d, districts := [] })) ∧
    (req.name ≠ "" → 0 < req.trials →
      GetByName items req.name = none →
        courtHandlePacket items req sender =
          (items ++ [{ id := courtNextID items, name := req.name, address := sender
                       trials := req.trials }],
           { success := true, message := "district created"
             district := some { id := courtNextID items, name := req.name
                                address := sender, trials := req.trials }
             districts := [] })) := by
  have hlist : req.type ≠ "list" := by rw [htype]; decide
  refine ⟨?_, ?_, ?_⟩
  · intro hbad
    unfold courtHandlePacket
    rw [if_neg hlist, if_pos htype, if_pos]
    rcases hbad with hb | hb <;> simp [hb]
  · intro hn ht d hd
    unfold courtHandlePacket
    rw [if_neg hlist, if_pos htype, if_neg (by simp [hn]; omega), hd]
  · intro hn ht hd
    unfold courtHandlePacket
    rw [if_neg hlist, if_pos htype, if_neg (by simp [hn]; omega), hd]

/-- Concrete instance: creating "Campinas" with 3 trials on an empty
registry inserts it with the sender's address and id 1. -/
theorem court_create_characterized_witness :
    courtHandlePacket [] { type := "create", name := "Campinas", trials := 3 }
        "127.0.0.1:9100" =
      ([{ id := 1, name := "Campinas", address := "127.0.0.1:9100", trials := 3 }],
       { success := true, message := "district created"
         district := some { id := 1, name := "Campinas", address := "127.0.0.1:9100"
                            trials := 3 }
         districts := [] }) :=
  (court_create_characterized [] _ "127.0.0.1:9100" rfl).2.2 (by decide) (by decide) rfl

/-! ## C10: read-only endpoints leave the trial state alone -/

/-- C10.  `lawsuit_query`, `search_lawsuit` and `workload_info` neither
change the in-memory trial state (all three lists, `next_seq` and the
identity fields included) nor write the state file. -/
theorem readonly_endpoints_frame (ts : TrialState) (saveOk : Bool)
    (stage : String) (q : ActionQuery) (field value : String) :
    (trialHandlePacket ts (.lawsuitQuery stage q) saveOk).state = ts ∧
    (trialHandlePacket ts (.lawsuitQuery stage q) saveOk).persisted = none ∧
    (trialHandlePacket ts (.searchLawsuit field value) saveOk).state = ts ∧
    (trialHandlePacket ts (.searchLawsuit field value) saveOk).persisted = none ∧
    (trialHandlePacket ts .workloadInfo saveOk).state = ts ∧
    (trialHandlePacket ts .workloadInfo saveOk).persisted = none :=
  ⟨rfl, rfl, rfl, rfl, rfl, rfl⟩

/-! ## C4: free distribution -/

theorem pickLeastLoaded_eq_foldl (trials : List TrialNode) (up : String → Bool) :
    pickLeastLoaded trials up = trials.foldl (pickStep up) none := by
  rfl

theorem pickStep_of_some (up : String → Bool) (p : TrialNode × Nat) (u : TrialNode) :
    ∃ q, pickStep up (some p) u = some q := by
  rcases p with ⟨bt, bw⟩
  by_cases hup : up u.address = true
  · by_cases hlt : CountActives u.state < bw
    · exact ⟨(u, CountActives u.state), by simp [pickStep, hup, hlt]⟩
    · exact ⟨(bt, bw), by simp [pickStep, hup, hlt]⟩
  · exact ⟨(bt, bw), by simp [pickStep, hup]⟩

theorem pickStep_foldl_ne_none (up : String → Bool) (l : List TrialNode)
    (p : TrialNode × Nat) : l.foldl (pickStep up) (some p) ≠ none := by
  induction l generalizing p with
  | nil => simp
  | cons u l ih =>
    rw [List.foldl_cons]
    obtain ⟨q, hq⟩ := pickStep_of_some up p u
    rw [hq]
    exact ih q

theorem pickLeastLoaded_none_iff (trials : List TrialNode) (up : String → Bool) :
    pickLeastLoaded trials up = none ↔ ∀ u ∈ trials, up u.address = false := by
  rw [pickLeastLoaded_eq_foldl]
  induction trials with
  | nil => simp
  | cons u l ih =>
    rw [List.foldl_cons]
    by_cases hu : up u.address = true
    · have hstep : pickStep up none u = some (u, CountActives u.state) := by
        simp [pickStep, hu]
      rw [hstep]
      simp only [List.mem_cons]
      constructor
      · intro h
        exact absurd h (pickStep_foldl_ne_none up l _)
      · intro h
        exact absurd (h u (Or.inl rfl)) (by simp [hu])
    · have hstep : pickStep up none u = none := by
        simp [pickStep, hu]
      rw [hstep, ih]
      simp only [List.mem_cons]
      constructor
      · rintro h v (rfl | hv)
        · simpa using hu
        · exact h v hv
      · intro h v hv
        exact h v (Or.inr hv)

theorem pickFold_spec (up : String → Bool) (l : List TrialNode) :
    ∀ (acc : Option (TrialNode × Nat)) (t : TrialNode) (w : Nat),
      l.foldl (pickStep up) acc = some (t, w) →
      (acc = some (t, w) ∧
        (∀ u ∈ l, up u.address = true → w ≤ CountActives u.state)) ∨
      (w = CountActives t.state ∧ up t.address = true ∧
        ∃ pre post, l = pre ++ t :: post ∧
          (∀ u ∈ pre, up u.address = true → w < CountActives u.state) ∧
          (∀ u ∈ post, up u.address = true → w ≤ CountActives u.state) ∧
          (∀ bt bw, acc = some (bt, bw) → w < bw)) := by
  induction l with
  | nil =>
    intro acc t w h
    simp only [List.foldl_nil] at h
    exact Or.inl ⟨h, by simp⟩
  | cons u l ih =>
    intro acc t w h
    rw [List.foldl_cons] at h
    by_cases hu : up u.address = true
    swap
    · have hstep : pickStep up acc u = acc := by
        simp [pickStep, hu]
      rw [hstep] at h
      rcases ih acc t w h with ⟨h1, h2⟩ | ⟨h1, h2, pre, post, hsplit, hpre, hpost, hacc⟩
      · refine Or.inl ⟨h1, ?_⟩
        intro v hv hresp
        rcases List.mem_cons.mp hv with rfl | hv'
        · exact absurd hresp (by simp [hu])
        · exact h2 v hv' hresp
      · refine Or.inr ⟨h1, h2, u :: pre, post, by simp [hsplit], ?_, hpost, hacc⟩
        intro v hv hresp
        rcases List.mem_cons.mp hv with rfl | hv'
        · exact absurd hresp (by simp [hu])
        · exact hpre v hv' hresp
    · rcases acc with _ | ⟨bt, bw⟩
      · have hstep : pickStep up none u = some (u, CountActives u.state) := by
          simp [pickStep, hu]
        rw [hstep] at h
        rcases ih _ t w h with ⟨h1, h2⟩ | ⟨h1, h2, pre, post, hsplit, hpre, hpost, hacc2⟩
        · injection h1 with h1
          obtain ⟨rfl, rfl⟩ := Prod.mk.injEq .. |>.mp h1
          exact Or.inr ⟨rfl, hu, [], l, rfl, by simp, h2, by simp⟩
        · have hlt : w < CountActives u.state := hacc2 u (CountActives u.state) rfl
          refine Or.inr ⟨h1, h2, u :: pre, post, by simp [hsplit], ?_, hpost, by simp⟩
          intro v hv hresp
          rcases List.mem_cons.mp hv with rfl | hv'
          · exact hlt
          · exact hpre v hv' hresp
      · by_cases hlt : CountActives u.state < bw
        · have hstep : pickStep up (some (bt, bw)) u = some (u, CountActives u.state) := by
            simp [pickStep, hu, hlt]
          rw [hstep] at h
          rcases ih _ t w h with ⟨h1, h2⟩ | ⟨h1, h2, pre, post, hsplit, hpre, hpost, hacc2⟩
          · injection h1 with h1
            obtain ⟨rfl, rfl⟩ := Prod.mk.injEq .. |>.mp h1
            refine Or.inr ⟨rfl, hu, [], l, rfl, by simp, h2, ?_⟩
            intro bt' bw' hb
            injection hb with hb
            obtain ⟨-, rfl⟩ := Prod.mk.injEq .. |>.mp hb
            exact hlt
          · have hltu : w < CountActives u.state := hacc2 u (CountActives u.state) rfl
            refine Or.inr ⟨h1, h2, u :: pre, post, by simp [hsplit], ?_, hpost, ?_⟩
            · intro v hv hresp
              rcases List.mem_cons.mp hv with rfl | hv'
              · exact hltu
              · exact hpre v hv' hresp
            · intro bt' bw' hb
              injection hb with hb
              obtain ⟨-, rfl⟩ := Prod.mk.injEq .. |>.mp hb
              exact lt_trans hltu hlt
        · have hstep : pickStep up (some (bt, bw)) u = some (bt, bw) := by
            simp [pickStep, hu, hlt]
          rw [hstep] at h
          rcases ih _ t w h with ⟨h1, h2⟩ | ⟨h1, h2, pre, post, hsplit, hpre, hpost, hacc2⟩
          · injection h1 with h1
            obtain ⟨rfl, rfl⟩ := Prod.mk.injEq .. |>.mp h1
            refine Or.inl ⟨rfl, ?_⟩
            intro v hv hresp
            rcases List.mem_cons.mp hv with rfl | hv'
            · omega
            · exact h2 v hv' hresp
          · have hwbw : w < bw := hacc2 bt bw rfl
            refine Or.inr ⟨h1, h2, u :: pre, post, by simp [hsplit], ?_, hpost, ?_⟩
            · intro v hv hresp
              rcases List.mem_cons.mp hv with rfl | hv'
              · omega
              · exact hpre v hv' hresp
            · intro bt' bw' hb
              injection hb with hb
              obtain ⟨-, rfl⟩ := Prod.mk.injEq .. |>.mp hb
              exact hwbw

/-- C4.  Free distribution: an empty roster fails with the no-local-trials
error; otherwise the lawsuit is created at the responding trial with the
minimum reported active-lawsuit count, ties resolving to the earlier trial
in roster insertion order (every responsive earlier trial is strictly more
loaded); when some trial responds a workload-based choice is made; and when
none responds within the timeout the roster entry at the random index is
chosen. -/
theorem free_distribution_characterized (trials : List TrialNode)
    (up : String → Bool) (randIdx : Nat) :
    (trials = [] →
      lawsuitFreeDistribution trials up randIdx =
        .error "no registered trials in this district") ∧
    (∀ t w, lawsuitFreeDistribution trials up randIdx = .ok (t, some w) →
      up t.address = true ∧ w = CountActives t.state ∧
      (∀ u ∈ trials, up u.address = true → w ≤ CountActives u.state) ∧
      ∃ pre post, trials = pre ++ t :: post ∧
        (∀ u ∈ pre, up u.address = true → w < CountActives u.state)) ∧
    ((∃ u ∈ trials, up u.address = true) →
      ∃ t w, lawsuitFreeDistribution trials up randIdx = .ok (t, some w)) ∧
    ((∀ u ∈ trials, up u.address = false) → trials ≠ [] →
      ∀ hr : randIdx < trials.length,
        lawsuitFreeDistribution trials up randIdx =
          .ok (trials.get ⟨randIdx, hr⟩, none)) := by
  refine ⟨?_, ?_, ?_, ?_⟩
  · intro h
    subst h
    rfl
  · intro t w h
    unfold lawsuitFreeDistribution at h
    by_cases hemp : trials.isEmpty
    · rw [if_pos hemp] at h
      exact absurd h (by simp)
    · rw [if_neg hemp] at h
      rcases hp : pickLeastLoaded trials up with _ | ⟨pt, pw⟩
      · rw [hp] at h
        exact absurd h (by simp)
      · rw [hp] at h
        obtain ⟨rfl, hw⟩ : pt = t ∧ some pw = some w := by
          constructor <;> { injection h with h'; cases h'; rfl }
        injection hw with hw
        subst hw
        rw [pickLeastLoaded_eq_foldl] at hp
        rcases pickFold_spec up trials none _ _ hp with ⟨h1, -⟩ | ⟨h1, h2, pre, post, hsplit, hpre, hpost, -⟩
        · exact absurd h1 (by simp)
        · refine ⟨h2, h1, ?_, pre, post, hsplit, hpre⟩
          intro u hu hresp
          rw [hsplit] at hu
          rcases List.mem_append.mp hu with hu' | hu'
          · exact le_of_lt (hpre u hu' hresp)
          · rcases List.mem_cons.mp hu' with rfl | hu''
            · exact le_of_eq h1
            · exact hpost u hu'' hresp
  · rintro ⟨u, hu, hresp⟩
    have hne : pickLeastLoaded trials up ≠ none := by
      rw [Ne, pickLeastLoaded_none_iff]
      intro hall
      exact absurd (hall u hu) (by simp [hresp])
    rcases hp : pickLeastLoaded trials up with _ | ⟨pt, pw⟩
    · exact absurd hp hne
    · refine ⟨pt, pw, ?_⟩
      unfold lawsuitFreeDistribution
      rw [if_neg (by rcases trials with _ | _ <;> simp_all), hp]
  · intro hall hne hr
    unfold lawsuitFreeDistribution
    rw [if_neg (by rcases trials with _ | _ <;> simp_all)]
    rw [(pickLeastLoaded_none_iff trials up).mpr hall]
    rw [Nat.mod_eq_of_lt hr]
    rw [List.getD_eq_getElem _ _ hr]
    rfl

/-- Concrete instance: with trials T1 (5 active) and T2 (2 active) both
responding, free distribution picks T2 with workload 2 and T1 is strictly
more loaded. -/
theorem free_distribution_characterized_witness :
    let mkA : Nat → Lawsuit := fun n =>
      { id := toString n, plaintiff := "p", defendant := "d", causeAction := 1
        claims := [1], connected := [] }
    let t1 : TrialNode :=
      { address := "127.0.0.1:9101"
        state := { districtID := 1, districtName := "Alpha", trialID := 1
                   trialAddr := "127.0.0.1:9101", nextSeq := 6
                   activesLawsuits := [mkA 1, mkA 2, mkA 3, mkA 4, mkA 5]
                   lawsuitsDisWithMerit := [], lawsuitsDisWithoutMerit := [] } }
    let t2 : TrialNode :=
      { address := "127.0.0.1:9102"
        state := { districtID := 1, districtName := "Alpha", trialID := 2
                   trialAddr := "127.0.0.1:9102", nextSeq := 3
                   activesLawsuits := [mkA 1, mkA 2]
                   lawsuitsDisWithMerit := [], lawsuitsDisWithoutMerit := [] } }
    (fun _ => true) t2.address = true ∧ 2 = CountActives t2.state ∧
    (∀ u ∈ [t1, t2], (fun _ => true) u.address = true → 2 ≤ CountActives u.state) ∧
    ∃ pre post, [t1, t2] = pre ++ t2 :: post ∧
      (∀ u ∈ pre, (fun _ => true) u.address = true → 2 < CountActives u.state) :=
  (free_distribution_characterized _ (fun _ => true) 0).2.1 _ 2 rfl

/-! ## C1: the admissibility pipeline refines the spec-side pipeline -/

theorem posMatch_iff (r : QueryResp) :
    posMatch r = true ↔ r.success = true ∧ r.matched ≠ "" ∧ r.matched ≠ "none" := by
  unfold posMatch
  simp [Bool.and_eq_true, bne_iff_ne]
  tauto

theorem patchTrialAddr_fields (t : TrialNode) (x : QueryResp) :
    (patchTrialAddr t x).success = x.success ∧
    (patchTrialAddr t x).matched = x.matched ∧
    (patchTrialAddr t x).lawsuitID = x.lawsuitID ∧
    (patchTrialAddr t x).trialAddr = (if x.trialAddr = "" then t.address else x.trialAddr) :=
  ⟨rfl, rfl, rfl, rfl⟩

theorem patchDistrict_fields (d : PeerDistrict) (x : QueryResp) :
    (patchDistrictName d (patchDistrictID d x)).success = x.success ∧
    (patchDistrictName d (patchDistrictID d x)).matched = x.matched ∧
    (patchDistrictName d (patchDistrictID d x)).lawsuitID = x.lawsuitID ∧
    (patchDistrictName d (patchDistrictID d x)).trialAddr = x.trialAddr := by
  unfold patchDistrictName patchDistrictID
  split
  · split <;> exact ⟨rfl, rfl, rfl, rfl⟩
  · split <;> exact ⟨rfl, rfl, rfl, rfl⟩

theorem verifyLocal_eq_findSome (trials : List TrialNode) (stage : String)
    (q : ActionQuery) :
    verifyLocalTrialsStage trials stage q = trials.findSome? (localPositive stage q) := by
  induction trials with
  | nil => rfl
  | cons t rest ih =>
    rw [List.findSome?_cons]
    show (if posMatch (handleLawsuitQuery t.state stage q) = true then
        some (patchTrialAddr t (handleLawsuitQuery t.state stage q))
      else verifyLocalTrialsStage rest stage q) = _
    by_cases hp : posMatch (handleLawsuitQuery t.state stage q) = true
    · rw [if_pos hp]
      unfold localPositive
      rw [if_pos hp]
    · rw [if_neg hp]
      unfold localPositive
      rw [if_neg hp]
      exact ih

theorem verifyOther_eq_findSome (selfName : String) (districts : List PeerDistrict)
    (stage : String) (q : ActionQuery) :
    verifyOtherDistrictsStage selfName districts stage q =
      (districts.filter
          (fun d => !eqFold d.name selfName && d.address.trim != "")).findSome?
        (peerPositive stage q) := by
  induction districts with
  | nil => rfl
  | cons d rest ih =>
    show (if eqFold d.name selfName = true then
        verifyOtherDistrictsStage selfName rest stage q
      else if d.address.trim = "" then
        verifyOtherDistrictsStage selfName rest stage q
      else if posMatch (handleActionQueryDistrict d stage q) = true then
        some (patchDistrictName d (patchDistrictID d (handleActionQueryDistrict d stage q)))
      else verifyOtherDistrictsStage selfName rest stage q) = _
    by_cases hself : eqFold d.name selfName = true
    · rw [if_pos hself, List.filter_cons_of_neg (by simp [hself])]
      exact ih
    · rw [if_neg hself]
      by_cases haddr : d.address.trim = ""
      · rw [if_pos haddr, List.filter_cons_of_neg (by simp [hself, haddr])]
        exact ih
      · rw [if_neg haddr, List.filter_cons_of_pos (by simp [hself, haddr]),
          List.findSome?_cons]
        by_cases hp : posMatch (handleActionQueryDistrict d stage q) = true
        · rw [if_pos hp]
          unfold peerPositive
          rw [if_pos hp]
        · rw [if_neg hp]
          unfold peerPositive
          rw [if_neg hp]
          exact ih

theorem specStageQuery_eq_code (w : World) (s : String) (q : ActionQuery) :
    specStageQuery w s q =
      (match verifyLocalTrialsStage w.localTrials s q with
       | some r => some r
       | none => verifyOtherDistrictsStage w.selfName w.districts s q) := by
  rw [specStageQuery, verifyLocal_eq_findSome, verifyOther_eq_findSome]

theorem localPositive_props {stage : String} {q : ActionQuery} {t : TrialNode}
    {r : QueryResp} (h : localPositive stage q t = some r) :
    r.success = (handleLawsuitQuery t.state stage q).success ∧
    r.matched = (handleLawsuitQuery t.state stage q).matched ∧
    r.lawsuitID = (handleLawsuitQuery t.state stage q).lawsuitID ∧
    r.trialAddr = (if (handleLawsuitQuery t.state stage q).trialAddr = "" then t.address
                   else (handleLawsuitQuery t.state stage q).trialAddr) ∧
    posMatch (handleLawsuitQuery t.state stage q) = true := by
  unfold localPositive at h
  by_cases hp : posMatch (handleLawsuitQuery t.state stage q) = true
  · rw [if_pos hp] at h
    injection h with h
    subst h
    obtain ⟨a1, a2, a3, a4⟩ := patchTrialAddr_fields t (handleLawsuitQuery t.state stage q)
    exact ⟨a1, a2, a3, a4, hp⟩
  · rw [if_neg hp] at h
    exact absurd h (by simp)

theorem handleADQ_cases (p : PeerDistrict) (stage : String) (q : ActionQuery) :
    handleActionQueryDistrict p stage q = aggregatorNoneResp stage ∨
    (∃ r0, verifyLocalTrialsStage p.trials stage q = some r0 ∧
      posMatch r0 = true ∧
      (handleActionQueryDistrict p stage q).success = r0.success ∧
      (handleActionQueryDistrict p stage q).matched = r0.matched ∧
      (handleActionQueryDistrict p stage q).lawsuitID = r0.lawsuitID ∧
      (handleActionQueryDistrict p stage q).trialAddr = r0.trialAddr) := by
  rcases hv : verifyLocalTrialsStage p.trials stage q with _ | r0
  · left
    unfold handleActionQueryDistrict
    rw [hv]
  · by_cases hp : posMatch r0 = true
    · refine Or.inr ⟨r0, rfl, hp, ?_⟩
      have hred : handleActionQueryDistrict p stage q =
          (if r0.districtName = "" || r0.districtID == 0 then
            { r0 with districtID := p.id, districtName := p.name }
          else r0) := by
        unfold handleActionQueryDistrict
        rw [hv]
        show (if (!posMatch r0) = true then aggregatorNoneResp stage else _) = _
        rw [if_neg (by simp [hp])]
      rw [hred]
      split <;> exact ⟨rfl, rfl, rfl, rfl⟩
    · left
      unfold handleActionQueryDistrict
      rw [hv]
      show (if (!posMatch r0) = true then aggregatorNoneResp stage else _) = _
      rw [if_pos (by simp [hp])]

theorem peerPositive_props {stage : String} {q : ActionQuery} {d : PeerDistrict}
    {r : QueryResp} (h : peerPositive stage q d = some r) :
    posMatch (handleActionQueryDistrict d stage q) = true ∧
    r.success = (handleActionQueryDistrict d stage q).success ∧
    r.matched = (handleActionQueryDistrict d stage q).matched ∧
    r.lawsuitID = (handleActionQueryDistrict d stage q).lawsuitID ∧
    r.trialAddr = (handleActionQueryDistrict d stage q).trialAddr := by
  unfold peerPositive at h
  by_cases hp : posMatch (handleActionQueryDistrict d stage q) = true
  · rw [if_pos hp] at h
    injection h with h
    subst h
    obtain ⟨a1, a2, a3, a4⟩ := patchDistrict_fields d (handleActionQueryDistrict d stage q)
    exact ⟨hp, a1, a2, a3, a4⟩
  · rw [if_neg hp] at h
    exact absurd h (by simp)

theorem joinderRow_verdicts {q : ActionQuery} {a x : Lawsuit} {mt : String}
    (h : joinderRow q a = some (mt, x)) :
    mt = "joinder_contained" ∨ mt = "joinder_continent" := by
  unfold joinderRow at h
  split at h
  · exact absurd h (by simp)
  · split at h
    · exact absurd h (by simp)
    · split at h
      · exact absurd h (by simp)
      · split at h
        · exact absurd h (by simp)
        · split at h
          · injection h with h
            exact Or.inl (congrArg Prod.fst h).symm
          · split at h
            · injection h with h
              exact Or.inr (congrArg Prod.fst h).symm
            · exact absurd h (by simp)

theorem handleLawsuitQuery_known (ts : TrialState) (q : ActionQuery) (s : String)
    (hs : s ∈ stageOrder) :
    (handleLawsuitQuery ts s q).success = true ∧
    ((handleLawsuitQuery ts s q).matched = "none" ∨
      (handleLawsuitQuery ts s q).matched ∈ stagePositives s) := by
  fin_cases hs
  · unfold handleLawsuitQuery
    rcases findIdenticalDwM ts "dis_with" q with _ | a <;> simp [stagePositives]
  · unfold handleLawsuitQuery
    rcases findIdenticalDwM ts "actives" q with _ | a <;> simp [stagePositives]
  · unfold handleLawsuitQuery
    rcases findIdenticalDwM ts "dis_without" q with _ | a <;> simp [stagePositives]
  · unfold handleLawsuitQuery
    rcases hj : findJoinder ts q with _ | ⟨mt, a⟩
    · simp [stagePositives]
    · obtain ⟨row, hrow, hres⟩ := List.exists_of_findSome?_eq_some hj
      rcases joinderRow_verdicts hres with h1 | h1 <;> simp [stagePositives, h1]
  · unfold handleLawsuitQuery
    rcases findConnection ts q with _ | a <;> simp [stagePositives]

theorem verifyLocal_known {trials : List TrialNode} {s : String} {q : ActionQuery}
    {r : QueryResp}
    (hs : s ∈ stageOrder) (h : verifyLocalTrialsStage trials s q = some r) :
    r.success = true ∧ r.matched ∈ stagePositives s := by
  rw [verifyLocal_eq_findSome] at h
  obtain ⟨t, ht, hres⟩ := List.exists_of_findSome?_eq_some h
  obtain ⟨h1, h2, -, -, hp⟩ := localPositive_props hres
  obtain ⟨hsu, hm⟩ := handleLawsuitQuery_known t.state q s hs
  obtain ⟨-, -, hne⟩ := (posMatch_iff _).mp hp
  refine ⟨h1.trans hsu, ?_⟩
  rcases hm with hm | hm
  · exact absurd hm hne
  · rw [h2]
    exact hm

theorem verifyOther_known {selfName : String} {districts : List PeerDistrict}
    {s : String} {q : ActionQuery} {r : QueryResp}
    (hs : s ∈ stageOrder)
    (h : verifyOtherDistrictsStage selfName districts s q = some r) :
    r.success = true ∧ r.matched ∈ stagePositives s := by
  rw [verifyOther_eq_findSome] at h
  obtain ⟨d, hd, hres⟩ := List.exists_of_findSome?_eq_some h
  obtain ⟨hp, h1, h2, -, -⟩ := peerPositive_props hres
  rcases handleADQ_cases d s q with hnone | ⟨r0, hr0, hp0, hsu, hm, -, -⟩
  · rw [hnone] at hp
    exact absurd hp (by simp [posMatch, aggregatorNoneResp])
  · have := verifyLocal_known hs hr0
    refine ⟨by rw [h1, hsu, this.1], ?_⟩
    rw [h2, hm]
    exact this.2

theorem specStageQuery_known {w : World} {s : String} {q : ActionQuery} {r : QueryResp}
    (hs : s ∈ stageOrder) (h : specStageQuery w s q = some r) :
    r.success = true ∧ r.matched ∈ stagePositives s := by
  rw [specStageQuery_eq_code] at h
  rcases hloc : verifyLocalTrialsStage w.localTrials s q with _ | r0
  · rw [hloc] at h
    exact verifyOther_known hs h
  · rw [hloc] at h
    injection h with h
    subst h
    exact verifyLocal_known hs hloc

theorem pipelineStage5_eq (w : World) (q : ActionQuery) :
    pipelineStage5 w q =
      (match specStageQuery w "connection" q with
       | some r => Decision.createRelated "connection" r
       | none => Decision.freeDistribution) := by
  rw [specStageQuery_eq_code]
  rcases hloc : verifyLocalTrialsStage w.localTrials "connection" q with _ | r
  · rcases hoth : verifyOtherDistrictsStage w.selfName w.districts "connection" q with _ | r
    · simp [pipelineStage5, hloc, hoth]
    · obtain ⟨hsu, hm⟩ := verifyOther_known (by decide) hoth
      have hm' : r.matched = "connection" := by simpa [stagePositives] using hm
      simp [pipelineStage5, hloc, hoth, hsu, hm']
  · obtain ⟨hsu, hm⟩ := verifyLocal_known (by decide) hloc
    have hm' : r.matched = "connection" := by simpa [stagePositives] using hm
    simp [pipelineStage5, hloc, hsu, hm']

theorem pipelineStage4_eq (w : World) (q : ActionQuery) :
    pipelineStage4 w q =
      (match specStageQuery w "joinder" q with
       | some r =>
         if r.matched = "joinder_contained" then Decision.reject "joinder" r
         else Decision.mergeClaims r
       | none => pipelineStage5 w q) := by
  rw [specStageQuery_eq_code]
  rcases hloc : verifyLocalTrialsStage w.localTrials "joinder" q with _ | r
  · rcases hoth : verifyOtherDistrictsStage w.selfName w.districts "joinder" q with _ | r
    · simp [pipelineStage4, hloc, hoth]
    · obtain ⟨hsu, hm⟩ := verifyOther_known (by decide) hoth
      have hm' : r.matched = "joinder_contained" ∨ r.matched = "joinder_continent" := by
        simpa [stagePositives] using hm
      rcases hm' with h | h <;> simp [pipelineStage4, hloc, hoth, hsu, h]
  · obtain ⟨hsu, hm⟩ := verifyLocal_known (by decide) hloc
    have hm' : r.matched = "joinder_contained" ∨ r.matched = "joinder_continent" := by
      simpa [stagePositives] using hm
    rcases hm' with h | h <;> simp [pipelineStage4, hloc, hsu, h]

theorem pipelineStage3_eq (w : World) (q : ActionQuery) :
    pipelineStage3 w q =
      (match specStageQuery w "repeated_request" q with
       | some r => Decision.createRelated "repeated_request" r
       | none => pipelineStage4 w q) := by
  rw [specStageQuery_eq_code]
  rcases hloc : verifyLocalTrialsStage w.localTrials "repeated_request" q with _ | r
  · rcases hoth : verifyOtherDistrictsStage w.selfName w.districts "repeated_request" q with _ | r
    · simp [pipelineStage3, hloc, hoth]
    · obtain ⟨hsu, hm⟩ := verifyOther_known (by decide) hoth
      have hm' : r.matched = "repeated_request" := by simpa [stagePositives] using hm
      simp [pipelineStage3, hloc, hoth, hsu, hm']
  · obtain ⟨hsu, hm⟩ := verifyLocal_known (by decide) hloc
    have hm' : r.matched = "repeated_request" := by simpa [stagePositives] using hm
    simp [pipelineStage3, hloc, hsu, hm']

theorem pipelineStage2_eq (w : World) (q : ActionQuery) :
    pipelineStage2 w q =
      (match specStageQuery w "lis_pendens" q with
       | some r => Decision.reject "lis_pendens" r
       | none => pipelineStage3 w q) := by
  rw [specStageQuery_eq_code]
  rcases hloc : verifyLocalTrialsStage w.localTrials "lis_pendens" q with _ | r
  · rcases hoth : verifyOtherDistrictsStage w.selfName w.districts "lis_pendens" q with _ | r
    · simp [pipelineStage2, hloc, hoth]
    · obtain ⟨hsu, hm⟩ := verifyOther_known (by decide) hoth
      have hm' : r.matched = "lis_pendens" := by simpa [stagePositives] using hm
      simp [pipelineStage2, hloc, hoth, hsu, hm']
  · obtain ⟨hsu, hm⟩ := verifyLocal_known (by decide) hloc
    have hm' : r.matched = "lis_pendens" := by simpa [stagePositives] using hm
    simp [pipelineStage2, hloc, hsu, hm']

theorem pipelineDecision_eq_stage1 (w : World) (q : ActionQuery) :
    pipelineDecision w q =
      (match specStageQuery w "res_judicata" q with
       | some r => Decision.reject "res_judicata" r
       | none => pipelineStage2 w q) := by
  rw [specStageQuery_eq_code]
  rcases hloc : verifyLocalTrialsStage w.localTrials "res_judicata" q with _ | r
  · rcases hoth : verifyOtherDistrictsStage w.selfName w.districts "res_judicata" q with _ | r
    · simp [pipelineDecision, hloc, hoth]
    · obtain ⟨hsu, hm⟩ := verifyOther_known (by decide) hoth
      have hm' : r.matched = "res_judicata" := by simpa [stagePositives] using hm
      simp [pipelineDecision, hloc, hoth, hsu, hm']
  · obtain ⟨hsu, hm⟩ := verifyLocal_known (by decide) hloc
    have hm' : r.matched = "res_judicata" := by simpa [stagePositives] using hm
    simp [pipelineDecision, hloc, hsu, hm']

theorem specPipeline_unfold (w : World) (q : ActionQuery) :
    specPipeline w q =
      (match specStageQuery w "res_judicata" q with
       | some r => Decision.reject "res_judicata" r
       | none =>
         match specStageQuery w "lis_pendens" q with
         | some r => Decision.reject "lis_pendens" r
         | none =>
           match specStageQuery w "repeated_request" q with
           | some r => Decision.createRelated "repeated_request" r
           | none =>
             match specStageQuery w "joinder" q with
             | some r =>
               if r.matched = "joinder_contained" then Decision.reject "joinder" r
               else Decision.mergeClaims r
             | none =>
               match specStageQuery w "connection" q with
               | some r => Decision.createRelated "connection" r
               | none => Decision.freeDistribution) := by
  unfold specPipeline stageOrder
  rcases h1 : specStageQuery w "res_judicata" q with _ | r1 <;>
    simp only [h1, List.findSome?_cons, Option.map_none', Option.map_some']
  · rcases h2 : specStageQuery w "lis_pendens" q with _ | r2 <;>
      simp only [h2, List.findSome?_cons, Option.map_none', Option.map_some']
    · rcases h3 : specStageQuery w "repeated_request" q with _ | r3 <;>
        simp only [h3, List.findSome?_cons, Option.map_none', Option.map_some']
      · rcases h4 : specStageQuery w "joinder" q with _ | r4 <;>
          simp only [h4, List.findSome?_cons, Option.map_none', Option.map_some']
        · rcases h5 : specStageQuery w "connection" q with _ | r5 <;>
            simp only [h5, List.findSome?_cons, List.findSome?_nil,
              Option.map_none', Option.map_some']
          all_goals simp [stageOutcomeSpec]
        · simp [stageOutcomeSpec]
      · simp [stageOutcomeSpec]
    · simp [stageOutcomeSpec]
  · simp [stageOutcomeSpec]

theorem pipelineDecision_eq_spec (w : World) (q : ActionQuery) :
    pipelineDecision w q = specPipeline w q := by
  rw [specPipeline_unfold, pipelineDecision_eq_stage1]
  rcases h1 : specStageQuery w "res_judicata" q with _ | r1
  · simp only [h1]
    rw [pipelineStage2_eq]
    rcases h2 : specStageQuery w "lis_pendens" q with _ | r2
    · simp only [h2]
      rw [pipelineStage3_eq]
      rcases h3 : specStageQuery w "repeated_request" q with _ | r3
      · simp only [h3]
        rw [pipelineStage4_eq]
        rcases h4 : specStageQuery w "joinder" q with _ | r4
        · simp only [h4]
          rw [pipelineStage5_eq]
        · simp only [h4]
      · simp only [h3]
    · simp only [h2]
  · simp only [h1]

/-- C1.  The district's filing loop equals the spec-side pipeline: the five
stages are evaluated strictly in the order res_judicata, lis_pendens,
repeated_request, joinder, connection; within each stage every local trial
is queried in roster order first and, only when none matched, every peer
district in roster order with the local district skipped by
case-insensitive name; the first positive match dispatches that stage's
outcome and terminates, and free distribution is reached only when no
stage matched anywhere. -/
theorem admissibility_pipeline_refines_spec (w : World) (q : ActionQuery) :
    pipelineDecision w q = specPipeline w q :=
  pipelineDecision_eq_spec w q

/-! ## C8: repeated_request dispatch -/

theorem specStageQuery_provenance {w : World} {s : String} {q : ActionQuery}
    {r : QueryResp} (h : specStageQuery w s q = some r) :
    ∃ t ∈ allTrials w, posMatch (handleLawsuitQuery t.state s q) = true ∧
      r.matched = (handleLawsuitQuery t.state s q).matched ∧
      r.lawsuitID = (handleLawsuitQuery t.state s q).lawsuitID ∧
      r.trialAddr = (if (handleLawsuitQuery t.state s q).trialAddr = "" then t.address
                     else (handleLawsuitQuery t.state s q).trialAddr) := by
  rw [specStageQuery_eq_code] at h
  rcases hloc : verifyLocalTrialsStage w.localTrials s q with _ | r0
  · rw [hloc] at h
    rw [verifyOther_eq_findSome] at h
    obtain ⟨d, hd, hres⟩ := List.exists_of_findSome?_eq_some h
    obtain ⟨hp, e1, e2, e3, e4⟩ := peerPositive_props hres
    rcases handleADQ_cases d s q with hnone | ⟨r1, hr1, hp1, f1, f2, f3, f4⟩
    · rw [hnone] at hp
      exact absurd hp (by simp [posMatch, aggregatorNoneResp])
    · rw [verifyLocal_eq_findSome] at hr1
      obtain ⟨t, ht, htres⟩ := List.exists_of_findSome?_eq_some hr1
      obtain ⟨g1, g2, g3, g4, gp⟩ := localPositive_props htres
      refine ⟨t, ?_, gp, ?_, ?_, ?_⟩
      · have hd' : d ∈ w.districts := List.mem_of_mem_filter hd
        unfold allTrials
        refine List.mem_append.mpr (Or.inr ?_)
        rw [List.mem_flatten]
        exact ⟨d.trials, List.mem_map.mpr ⟨d, hd', rfl⟩, ht⟩
      · rw [e2, f2, g2]
      · rw [e3, f3, g3]
      · rw [e4, f4, g4]
  · rw [hloc] at h
    injection h with h
    subst h
    rw [verifyLocal_eq_findSome] at hloc
    obtain ⟨t, ht, htres⟩ := List.exists_of_findSome?_eq_some hloc
    obtain ⟨g1, g2, g3, g4, gp⟩ := localPositive_props htres
    exact ⟨t, by unfold allTrials; exact List.mem_append.mpr (Or.inl ht), gp, g2, g3, g4⟩

theorem pipelineDecision_createRelated_rr {w : World} {q : ActionQuery} {r : QueryResp}
    (h : pipelineDecision w q = .createRelated "repeated_request" r) :
    specStageQuery w "repeated_request" q = some r := by
  rw [pipelineDecision_eq_spec, specPipeline_unfold] at h
  rcases h1 : specStageQuery w "res_judicata" q with _ | r1
  swap
  · simp only [h1] at h
    exact absurd h (by simp)
  simp only [h1] at h
  rcases h2 : specStageQuery w "lis_pendens" q with _ | r2
  swap
  · simp only [h2] at h
    exact absurd h (by simp)
  simp only [h2] at h
  rcases h3 : specStageQuery w "repeated_request" q with _ | r3
  swap
  · simp only [h3] at h
    simp only [Decision.createRelated.injEq] at h
    rw [h.2]
  simp only [h3] at h
  rcases h4 : specStageQuery w "joinder" q with _ | r4
  swap
  · simp only [h4] at h
    split at h <;> exact absurd h (by simp)
  simp only [h4] at h
  rcases h5 : specStageQuery w "connection" q with _ | r5
  swap
  · simp only [h5] at h
    simp only [Decision.createRelated.injEq] at h
    exact absurd h.1 (by decide)
  simp only [h5] at h
  exact absurd h (by simp)

theorem hlq_rr_eq (ts : TrialState) (q : ActionQuery) :
    handleLawsuitQuery ts "repeated_request" q =
      (match findIdenticalDwM ts "dis_without" q with
       | some a =>
         { success := true, stage := "repeated_request", matched := "repeated_request"
           message := "identical lawsuit found in dismissed without prejudice (no merit judgment -> repeated request)."
           lawsuitID := a.id, districtID := ts.districtID, districtName := ts.districtName
           trialID := ts.trialID, trialAddr := ts.trialAddr
           existentClaims := [], connectedLawsuits := [] }
       | none =>
         { success := true, stage := "repeated_request", matched := "none"
           message := "no corresponding lawsuit found in this trial"
           lawsuitID := "", districtID := ts.districtID, districtName := ts.districtName
           trialID := ts.trialID, trialAddr := ts.trialAddr
           existentClaims := [], connectedLawsuits := [] }) := by
  rcases hf : findIdenticalDwM ts "dis_without" q with _ | a <;>
    simp [handleLawsuitQuery, hf]

theorem findIdenticalDwM_dis_without (ts : TrialState) (q : ActionQuery) :
    findIdenticalDwM ts "dis_without" q =
      ts.lawsuitsDisWithoutMerit.find? (fun a => identicalMatch a q) := by
  rfl

theorem handleLawsuitCreateST_rr (ts : TrialState) (q : ActionQuery) (related : String)
    (h1 : q.plaintiff ≠ "") (h2 : q.defendant ≠ "") (h3 : q.causeID ≠ 0)
    (h4 : q.claims ≠ []) :
    handleLawsuitCreateST ts "repeated_request" q related true =
      ((CreateLawsuit ts q.plaintiff q.defendant q.causeID q.claims []).1,
       { success := true
         message := "lawsuit created as REPEATED REQUEST (related to the lawsuit "
           ++ related ++ ")"
         lawsuitID := (CreateLawsuit ts q.plaintiff q.defendant q.causeID q.claims []).2.id
         districtID := ts.districtID, districtName := ts.districtName
         trialID := ts.trialID, trialAddr := ts.trialAddr }) := by
  unfold handleLawsuitCreateST
  rw [if_neg (by simp [h1, h2, h3, h4])]
  simp [createLawsuitOp, CreateLawsuit]

/-- C8 counterexample to the claim as stated, at the spec's own scenario 2
world: the pipeline adopts the repeated-request match on lawsuit 1.2.1 and
the trial creates the new lawsuit 1.2.2 in its active list, but the stored
lawsuit carries NO related annotation: its `connected` set is empty and in
particular never references 1.2.1 (`AddConnection` runs only for reason
"connection"). -/
theorem repeated_request_annotation_counterexample :
    pipelineDecision rrWorld rrQuery = .createRelated "repeated_request" rrResp ∧
    rrResp.lawsuitID = "1.2.1" ∧
    (handleLawsuitCreateST rrWorldTrial.state "repeated_request" rrQuery "1.2.1" true).2.lawsuitID
      = "1.2.2" ∧
    (handleLawsuitCreateST rrWorldTrial.state "repeated_request" rrQuery "1.2.1" true).1.activesLawsuits
      = [{ id := "1.2.2", plaintiff := "Ana", defendant := "Bia", causeAction := 7
           claims := [10, 20], connected := [] }] ∧
    (∀ a ∈ (handleLawsuitCreateST rrWorldTrial.state "repeated_request" rrQuery "1.2.1" true).1.activesLawsuits,
      "1.2.1" ∉ a.connected) := by
  refine ⟨by decide, rfl, by decide, by decide, by decide⟩

/-- C8 amended.  When the pipeline adopts a repeated_request match (and the
trials' mirrored addresses agree with their roster addresses), the create
request goes to the address of a trial holding a dismissed-without-merit
lawsuit identical to the candidate whose id is the adopted response's
lawsuit id; that trial appends the new lawsuit to its active list with the
next sequential id and increments next_seq; the reply and the create
request reference the matched lawsuit's id, but the stored lawsuit's
connected set is empty. -/
theorem repeated_request_creates_in_matched_trial (w : World) (q : ActionQuery)
    (r : QueryResp)
    (haddr : ∀ t ∈ allTrials w, t.state.trialAddr = t.address)
    (hdec : pipelineDecision w q = .createRelated "repeated_request" r)
    (h1 : q.plaintiff ≠ "") (h2 : q.defendant ≠ "") (h3 : q.causeID ≠ 0)
    (h4 : q.claims ≠ []) :
    ∃ t ∈ allTrials w,
      r.trialAddr = t.address ∧
      (∃ a ∈ t.state.lawsuitsDisWithoutMerit, identicalMatch a q = true ∧ r.lawsuitID = a.id) ∧
      (handleLawsuitCreateST t.state "repeated_request" q r.lawsuitID true).1.activesLawsuits =
        t.state.activesLawsuits ++
          [{ id := mkLawsuitID t.state.districtID t.state.trialID t.state.nextSeq
             plaintiff := q.plaintiff, defendant := q.defendant
             causeAction := q.causeID, claims := q.claims, connected := [] }] ∧
      (handleLawsuitCreateST t.state "repeated_request" q r.lawsuitID true).1.nextSeq =
        t.state.nextSeq + 1 ∧
      (handleLawsuitCreateST t.state "repeated_request" q r.lawsuitID true).2.success = true ∧
      (handleLawsuitCreateST t.state "repeated_request" q r.lawsuitID true).2.lawsuitID =
        mkLawsuitID t.state.districtID t.state.trialID t.state.nextSeq ∧
      (handleLawsuitCreateST t.state "repeated_request" q r.lawsuitID true).2.message =
        "lawsuit created as REPEATED REQUEST (related to the lawsuit " ++ r.lawsuitID ++ ")" := by
  obtain ⟨t, ht, hp, hm, hid, haddr'⟩ :=
    specStageQuery_provenance (pipelineDecision_createRelated_rr hdec)
  rw [hlq_rr_eq] at hp hm hid haddr'
  rcases hf : findIdenticalDwM t.state "dis_without" q with _ | a
  · rw [hf] at hp
    exact absurd hp (by simp [posMatch])
  · rw [hf] at hm hid haddr'
    rw [findIdenticalDwM_dis_without] at hf
    have hmem : a ∈ t.state.lawsuitsDisWithoutMerit := List.mem_of_find?_eq_some hf
    have hmatch : identicalMatch a q = true := by
      have := List.find?_some hf
      simpa using this
    have htaddr : r.trialAddr = t.address := by
      rw [haddr']
      simp only []
      rw [haddr t ht]
      split <;> rfl
    have hcr := handleLawsuitCreateST_rr t.state q r.lawsuitID h1 h2 h3 h4
    refine ⟨t, ht, htaddr, ⟨a, hmem, hmatch, by rw [hid]⟩, ?_, ?_, ?_, ?_, ?_⟩
    · rw [hcr]
      rfl
    · rw [hcr]
      rfl
    · rw [hcr]
    · rw [hcr]
      rfl
    · rw [hcr]

/-- Concrete instance of the amended repeated-request behavior at the
scenario-2 world. -/
theorem repeated_request_creates_in_matched_trial_witness :
    ∃ t ∈ allTrials rrWorld,
      rrResp.trialAddr = t.address ∧
      (∃ a ∈ t.state.lawsuitsDisWithoutMerit,
        identicalMatch a rrQuery = true ∧ rrResp.lawsuitID = a.id) ∧
      (handleLawsuitCreateST t.state "repeated_request" rrQuery rrResp.lawsuitID true).1.activesLawsuits =
        t.state.activesLawsuits ++
          [{ id := mkLawsuitID t.state.districtID t.state.trialID t.state.nextSeq
             plaintiff := rrQuery.plaintiff, defendant := rrQuery.defendant
             causeAction := rrQuery.causeID, claims := rrQuery.claims, connected := [] }] ∧
      (handleLawsuitCreateST t.state "repeated_request" rrQuery rrResp.lawsuitID true).1.nextSeq =
        t.state.nextSeq + 1 ∧
      (handleLawsuitCreateST t.state "repeated_request" rrQuery rrResp.lawsuitID true).2.success = true ∧
      (handleLawsuitCreateST t.state "repeated_request" rrQuery rrResp.lawsuitID true).2.lawsuitID =
        mkLawsuitID t.state.districtID t.state.trialID t.state.nextSeq ∧
      (handleLawsuitCreateST t.state "repeated_request" rrQuery rrResp.lawsuitID true).2.message =
        "lawsuit created as REPEATED REQUEST (related to the lawsuit " ++ rrResp.lawsuitID ++ ")" :=
  repeated_request_creates_in_matched_trial rrWorld rrQuery rrResp
    (by decide) (by decide) (by decide) (by decide) (by decide) (by decide)

end Judiciary
